import Mathlib

/-!
Verification of the Collin County foreclosure pipeline
(`parse_foreclosure_pdfs.py` and the checkpoint layer of
`backup/scrape_collin_foreclosures_proxy copy 6.py`).

The Python code is shallowly embedded as executable Lean definitions:

* Python strings are `List Char` (wrapped in `String` at the boundaries);
  `str.strip`, `str.lower`, `str.replace`, `str.split`, `str.find`,
  `str.rfind` are reimplemented with Python semantics.
* `json.loads` is modelled by `pyJsonLoads`, a strict JSON parser producing
  the `Json` inductive (objects keep insertion order, duplicate keys update
  in place, unescaped control characters are rejected, numbers keep their
  written mantissa/scale/exponent).  The non-standard `NaN/Infinity`
  extensions of Python's parser are not modelled; no input in this
  development contains them.
* every `re`-based search/substitution of the source is embedded as a
  dedicated scanner that implements the exact semantics of that one
  pattern (leftmost match, greedy/lazy quantifiers, the lookarounds of the
  specific pattern); each scanner's doc comment cites the original regex.
* effectful collaborators (the PDF libraries, the generative service, the
  file system, the wall clock) appear as explicit parameters, and
  try/except propagation is made explicit in the control flow.

Recursions that are not structural take an explicit `fuel : Nat`; every
caller passes a fuel larger than the scanned text, so the fuel clause is
never reached on real inputs and all definitions evaluate by kernel
reduction (`rfl`/`decide`).
-/

/-! ## Python string primitives -/

/-- Whitespace for Python's `str.strip()`, `str.split()` and `\s` in `re`
(ASCII range): space, tab, newline, carriage return, vertical tab, form feed. -/
def pyIsSpace (c : Char) : Bool :=
  c = ' ' || c = '\t' || c = '\n' || c = '\r' || c = '\x0b' || c = '\x0c'

/-- The double-quote character `"`. -/
def dqChar : Char := Char.ofNat 34

/-- The single-quote character. -/
def sqChar : Char := Char.ofNat 39

/-- The backslash character. -/
def bslChar : Char := Char.ofNat 92

/-- The left-brace character. -/
def lbrChar : Char := Char.ofNat 123

/-- The right-brace character. -/
def rbrChar : Char := Char.ofNat 125

/-- ASCII lower-casing of one character (Python `str.lower` on ASCII input). -/
def asciiLowerChar (c : Char) : Char :=
  if 'A' ≤ c ∧ c ≤ 'Z' then Char.ofNat (c.toNat + 32) else c

/-- Python `str.lower` (ASCII). -/
def pyLowerL (l : List Char) : List Char := l.map asciiLowerChar

/-- Python `str.strip()` with no arguments. -/
def pyStripL (l : List Char) : List Char :=
  ((l.dropWhile pyIsSpace).reverse.dropWhile pyIsSpace).reverse

/-- Python `str.strip()` on `String`. -/
def pyStrip (s : String) : String := ⟨pyStripL s.data⟩

/-- Does the second list start with the first one? -/
def startsWithL : List Char → List Char → Bool
  | [], _ => true
  | _ :: _, [] => false
  | p :: ps, c :: cs => p = c && startsWithL ps cs

/-- Case-insensitive `startsWithL` (for `re.IGNORECASE` literals). -/
def startsWithCI : List Char → List Char → Bool
  | [], _ => true
  | _ :: _, [] => false
  | p :: ps, c :: cs => asciiLowerChar p = asciiLowerChar c && startsWithCI ps cs

/-- Python's `pat in s` substring test. -/
def containsSub : List Char → List Char → Bool
  | [], pat => startsWithL pat []
  | c :: cs, pat => startsWithL pat (c :: cs) || containsSub cs pat

/-- Python `str.find`: index of the first occurrence of `pat`, if any. -/
def firstOccur : List Char → List Char → Option Nat
  | [], pat => if startsWithL pat [] then some 0 else none
  | c :: cs, pat =>
    if startsWithL pat (c :: cs) then some 0
    else (firstOccur cs pat).map (· + 1)

/-- Python `str.rfind`: index of the last occurrence of `pat`, if any. -/
def lastOccur : List Char → List Char → Option Nat
  | [], pat => if startsWithL pat [] then some 0 else none
  | c :: cs, pat =>
    match lastOccur cs pat with
    | some i => some (i + 1)
    | none => if startsWithL pat (c :: cs) then some 0 else none

/-- Python `s.replace(pat, rep)` (all occurrences, left to right,
replaced text not rescanned), with fuel. -/
def pyReplaceFuel (fuel : Nat) (l pat rep : List Char) : List Char :=
  match fuel, l with
  | 0, l => l
  | _, [] => []
  | fuel + 1, c :: cs =>
    if pat ≠ [] ∧ startsWithL pat (c :: cs) = true then
      rep ++ pyReplaceFuel fuel (List.drop (pat.length - 1) cs) pat rep
    else
      c :: pyReplaceFuel fuel cs pat rep

/-- Python `s.replace(pat, rep)`. -/
def pyReplace (l pat rep : List Char) : List Char :=
  pyReplaceFuel (l.length + 1) l pat rep

/-- Python `s.split(pat)` for a non-empty separator (keeps empty pieces). -/
def pySplitOnFuel (fuel : Nat) (l pat : List Char) (acc : List Char) :
    List (List Char) :=
  match fuel, l with
  | 0, l => [acc.reverse ++ l]
  | _, [] => [acc.reverse]
  | fuel + 1, c :: cs =>
    if pat ≠ [] ∧ startsWithL pat (c :: cs) = true then
      acc.reverse :: pySplitOnFuel fuel (List.drop (pat.length - 1) cs) pat []
    else
      pySplitOnFuel fuel cs pat (c :: acc)

/-- Python `s.split(pat)`. -/
def pySplitOn (l pat : List Char) : List (List Char) :=
  pySplitOnFuel (l.length + 1) l pat []

/-- Python `s.split(pat)[-1]`: the part after the last occurrence of `pat`
(the whole string when `pat` does not occur). -/
def afterLast (l pat : List Char) : List Char :=
  match lastOccur l pat with
  | some i => List.drop (i + pat.length) l
  | none => l

/-- Python `str.split()` with no arguments: maximal whitespace-free words,
empty pieces dropped.  `acc` holds the current word reversed. -/
def pyWordsAux : List Char → List Char → List (List Char)
  | [], acc => if acc = [] then [] else [acc.reverse]
  | c :: cs, acc =>
    if pyIsSpace c then
      if acc = [] then pyWordsAux cs []
      else acc.reverse :: pyWordsAux cs []
    else
      pyWordsAux cs (c :: acc)

/-- Python `str.split()` with no arguments. -/
def pyWords (l : List Char) : List (List Char) := pyWordsAux l []

/-- Python `" ".join(ws)`. -/
def joinWords : List (List Char) → List Char
  | [] => []
  | [w] => w
  | w :: ws => w ++ ' ' :: joinWords ws

/-! ## JSON values and `json.loads` -/

/-- Parsed JSON values, as produced by Python's `json.loads`.
Objects are insertion-ordered key/value lists (Python dicts); numbers are
kept as written: `num m s e` is mantissa `m` with `s` fractional digits
and decimal exponent `e` (so `12.50e3` is `num 1250 2 3`). -/
inductive Json where
  | null : Json
  | bool : Bool → Json
  | num : Int → Nat → Int → Json
  | str : String → Json
  | arr : List Json → Json
  | obj : List (String × Json) → Json

/-- Python dict insertion/update: an existing key keeps its position and
gets the new value, a new key is appended (used for duplicate keys in
`json.loads`). -/
def objUpd (kvs : List (String × Json)) (k : String) (v : Json) :
    List (String × Json) :=
  match kvs with
  | [] => [(k, v)]
  | (k0, v0) :: rest =>
    if k0 = k then (k0, v) :: rest else (k0, v0) :: objUpd rest k v

/-- Python `d.get(k)` on a dict: `none` when the key is missing. -/
def dictGet (kvs : List (String × Json)) (k : String) : Option Json :=
  match kvs with
  | [] => none
  | (k0, v0) :: rest => if k0 = k then some v0 else dictGet rest k

/-- JSON inter-token whitespace (` `, tab, newline, carriage return). -/
def jsonWs (c : Char) : Bool := c = ' ' || c = '\t' || c = '\n' || c = '\r'

/-- Skip JSON inter-token whitespace. -/
def skipJsonWs (l : List Char) : List Char := l.dropWhile jsonWs

/-- Value of one hex digit. -/
def hexVal (c : Char) : Option Nat :=
  if '0' ≤ c ∧ c ≤ '9' then some (c.toNat - 48)
  else if 'a' ≤ c ∧ c ≤ 'f' then some (c.toNat - 87)
  else if 'A' ≤ c ∧ c ≤ 'F' then some (c.toNat - 55)
  else none

/-- Body of a JSON string literal, after the opening quote.  Strict mode of
`json.loads`: unescaped control characters (below 0x20) are an error; the
escapes are `\" \\ \/ \b \f \n \r \t \uXXXX`.  (Surrogate-pair combination
is not modelled; no input in this development uses `\u` escapes.) -/
def parseStringBody (fuel : Nat) (l : List Char) (acc : List Char) :
    Option (String × List Char) :=
  match fuel, l with
  | 0, _ => none
  | _, [] => none
  | fuel + 1, c :: cs =>
    if c = dqChar then some (⟨acc.reverse⟩, cs)
    else if c = bslChar then
      match cs with
      | [] => none
      | e :: cs2 =>
        if e = dqChar then parseStringBody fuel cs2 (dqChar :: acc)
        else if e = bslChar then parseStringBody fuel cs2 (bslChar :: acc)
        else if e = '/' then parseStringBody fuel cs2 ('/' :: acc)
        else if e = 'b' then parseStringBody fuel cs2 ('\x08' :: acc)
        else if e = 'f' then parseStringBody fuel cs2 ('\x0c' :: acc)
        else if e = 'n' then parseStringBody fuel cs2 ('\n' :: acc)
        else if e = 'r' then parseStringBody fuel cs2 ('\r' :: acc)
        else if e = 't' then parseStringBody fuel cs2 ('\t' :: acc)
        else if e = 'u' then
          match cs2 with
          | h1 :: h2 :: h3 :: h4 :: cs3 =>
            match hexVal h1, hexVal h2, hexVal h3, hexVal h4 with
            | some a, some b, some c2, some d =>
              parseStringBody fuel cs3
                (Char.ofNat (a * 4096 + b * 256 + c2 * 16 + d) :: acc)
            | _, _, _, _ => none
          | _ => none
        else none
    else if c.toNat < 32 then none
    else parseStringBody fuel cs (c :: acc)

/-- Decimal digits to a natural number. -/
def digitsToNat (ds : List Char) : Nat :=
  ds.foldl (fun n c => n * 10 + (c.toNat - 48)) 0

/-- A JSON number literal: `-?(0|[1-9][0-9]*)(\.[0-9]+)?([eE][+-]?[0-9]+)?`. -/
def parseJsonNumber (l : List Char) : Option (Json × List Char) :=
  let signed : Bool × List Char :=
    match l with
    | c :: r => if c = '-' then (true, r) else (false, l)
    | [] => (false, l)
  let neg := signed.1
  let l1 := signed.2
  let ip := l1.takeWhile Char.isDigit
  let r1 := l1.dropWhile Char.isDigit
  if ip = [] then none
  else if ip.length > 1 ∧ ip.headD ' ' = '0' then none
  else
    let fracPart : Option (List Char) × List Char :=
      match r1 with
      | c :: rest =>
        if c = '.' then
          (some (rest.takeWhile Char.isDigit), rest.dropWhile Char.isDigit)
        else (none, r1)
      | [] => (none, r1)
    match fracPart with
    | (some [], _) => none
    | (fp, r2) =>
      let expPart : Option (Bool × List Char) × List Char :=
        match r2 with
        | c :: rest =>
          if c = 'e' ∨ c = 'E' then
            match rest with
            | s :: rest2 =>
              if s = '+' then (some (false, rest2.takeWhile Char.isDigit),
                               rest2.dropWhile Char.isDigit)
              else if s = '-' then (some (true, rest2.takeWhile Char.isDigit),
                                    rest2.dropWhile Char.isDigit)
              else (some (false, rest.takeWhile Char.isDigit),
                    rest.dropWhile Char.isDigit)
            | [] => (some (false, []), [])
          else (none, r2)
        | [] => (none, r2)
      match expPart with
      | (some (_, []), _) => none
      | (ex, r3) =>
        let fds := match fp with | some ds => ds | none => []
        let mAbs : Int := Int.ofNat (digitsToNat (ip ++ fds))
        let m : Int := if neg then -mAbs else mAbs
        let e : Int :=
          match ex with
          | some (eneg, eds) =>
            if eneg then -(Int.ofNat (digitsToNat eds))
            else Int.ofNat (digitsToNat eds)
          | none => 0
        some (Json.num m fds.length e, r3)

/-- One pass of array items: `pv` parses an element, `fuel` bounds the
number of elements. -/
def parseArrItems (pv : List Char → Option (Json × List Char)) :
    Nat → List Char → List Json → Option (Json × List Char)
  | 0, _, _ => none
  | fuel + 1, l, acc =>
    match pv l with
    | none => none
    | some (v, r) =>
      let r := skipJsonWs r
      match r with
      | c :: r2 =>
        if c = ',' then parseArrItems pv fuel r2 (v :: acc)
        else if c = ']' then some (Json.arr (v :: acc).reverse, r2)
        else none
      | [] => none

/-- One pass of object members: `pv` parses a value, `fuel` bounds the
number of members.  Duplicate keys update in place (Python dict). -/
def parseObjItems (pv : List Char → Option (Json × List Char)) :
    Nat → List Char → List (String × Json) → Option (Json × List Char)
  | 0, _, _ => none
  | fuel + 1, l, acc =>
    let l := skipJsonWs l
    match l with
    | c :: cs =>
      if c = dqChar then
        match parseStringBody (cs.length + 1) cs [] with
        | none => none
        | some (k, r) =>
          let r := skipJsonWs r
          match r with
          | c2 :: r2 =>
            if c2 = ':' then
              match pv r2 with
              | none => none
              | some (v, r3) =>
                let acc := objUpd acc k v
                let r3 := skipJsonWs r3
                match r3 with
                | c3 :: r4 =>
                  if c3 = ',' then parseObjItems pv fuel r4 acc
                  else if c3 = rbrChar then some (Json.obj acc, r4)
                  else none
                | [] => none
            else none
          | [] => none
      else none
    | [] => none

/-- A JSON value (fueled on nesting depth). -/
def parseJsonValue : Nat → List Char → Option (Json × List Char)
  | 0, _ => none
  | fuel + 1, l =>
    let l := skipJsonWs l
    match l with
    | [] => none
    | c :: cs =>
      if c = dqChar then
        (parseStringBody (cs.length + 1) cs []).map fun p => (Json.str p.1, p.2)
      else if c = lbrChar then
        let cs2 := skipJsonWs cs
        match cs2 with
        | c2 :: r =>
          if c2 = rbrChar then some (Json.obj [], r)
          else parseObjItems (parseJsonValue fuel) (cs2.length + 1) cs2 []
        | [] => none
      else if c = '[' then
        let cs2 := skipJsonWs cs
        match cs2 with
        | c2 :: r =>
          if c2 = ']' then some (Json.arr [], r)
          else parseArrItems (parseJsonValue fuel) (cs2.length + 1) cs2 []
        | [] => none
      else if startsWithL "true".data (c :: cs) then
        some (Json.bool true, List.drop 3 cs)
      else if startsWithL "false".data (c :: cs) then
        some (Json.bool false, List.drop 4 cs)
      else if startsWithL "null".data (c :: cs) then
        some (Json.null, List.drop 3 cs)
      else
        parseJsonNumber (c :: cs)

/-- Python `json.loads`: one JSON value, surrounding whitespace allowed,
anything else trailing is an error. -/
def pyJsonLoads (s : String) : Option Json :=
  match parseJsonValue (s.data.length + 1) s.data with
  | some (v, rest) => if skipJsonWs rest = [] then some v else none
  | none => none

/-! ## The JSON repair substitutions of `_extract_json_from_response`

Each `re.sub` of the source (lines 370-401 of `parse_foreclosure_pdfs.py`)
is embedded as a scanner implementing that pattern's exact semantics
(leftmost match, replaced text not rescanned). -/

/-- Source: `json_str.replace("'", '"')`. -/
def subSingleQuotes (l : List Char) : List Char :=
  l.map fun c => if c = sqChar then dqChar else c

/-- Source: `re.sub(r',\s*}', '}', json_str)` (and the `]` variant):
a comma, maximal whitespace, then `close` is replaced by `close`. -/
def subTrailingComma (close : Char) (fuel : Nat) (l : List Char) : List Char :=
  match fuel, l with
  | 0, l => l
  | _, [] => []
  | fuel + 1, c :: cs =>
    if c = ',' then
      match cs.dropWhile pyIsSpace with
      | d :: rest2 =>
        if d = close then close :: subTrailingComma close fuel rest2
        else c :: subTrailingComma close fuel cs
      | [] => c :: subTrailingComma close fuel cs
    else c :: subTrailingComma close fuel cs

/-- Is the next non-whitespace character a colon? (the `(?!\s*:)`
lookahead). -/
def colonAfterWs (l : List Char) : Bool :=
  match l.dropWhile pyIsSpace with
  | c :: _ => c = ':'
  | [] => false

/-- Source: `re.sub(r'(?<!\\)"([^"]*?)\\([^"]*?)"(?!\s*:)', r'"\1\\\\\2"',
json_str)`.  A quote not preceded by a backslash opens a region running to
the next quote; if the region contains a backslash and the closing quote is
not followed by optional whitespace and a colon, the first backslash of the
region is doubled (lazy `\1` = before the first backslash) and scanning
resumes after the closing quote; otherwise the opener is emitted and the
scan moves one character (so the closer is retried as an opener). -/
def subBackslashFix (fuel : Nat) (prev : Option Char) (l : List Char) :
    List Char :=
  match fuel, l with
  | 0, l => l
  | _, [] => []
  | fuel + 1, c :: cs =>
    if c = dqChar ∧ prev ≠ some bslChar then
      match firstOccur cs [dqChar] with
      | some j =>
        let region := cs.take j
        if bslChar ∈ region ∧ colonAfterWs (cs.drop (j + 1)) = false then
          match firstOccur region [bslChar] with
          | some k =>
            dqChar ::
              (region.take k ++ bslChar :: bslChar :: region.drop (k + 1) ++
                [dqChar]) ++
              subBackslashFix fuel (some dqChar) (cs.drop (j + 1))
          | none => c :: subBackslashFix fuel (some c) cs
        else c :: subBackslashFix fuel (some c) cs
      | none => c :: subBackslashFix fuel (some c) cs
    else c :: subBackslashFix fuel (some c) cs

/-- Python `\w` (ASCII): letters, digits, underscore. -/
def isWordChar (c : Char) : Bool := c.isAlpha || c.isDigit || c = '_'

/-- Source: `re.sub(r'(\w+):', r'"\1":', json_str)`: a maximal word run
immediately followed by a colon gets quoted (a run not followed by a colon
has no sub-run followed by one, so it is skipped whole). -/
def subQuoteKeys (fuel : Nat) (l : List Char) : List Char :=
  match fuel, l with
  | 0, l => l
  | _, [] => []
  | fuel + 1, c :: cs =>
    if isWordChar c then
      let run := (c :: cs).takeWhile isWordChar
      let rest := (c :: cs).drop run.length
      match rest with
      | ':' :: rest2 =>
        (dqChar :: run ++ [dqChar, ':']) ++ subQuoteKeys fuel rest2
      | _ => run ++ subQuoteKeys fuel rest
    else c :: subQuoteKeys fuel cs

/-- Source: `re.sub(r'""(\w+)"":', r'"\1":', json_str)`. -/
def subUnDoubleKeys (fuel : Nat) (l : List Char) : List Char :=
  match fuel, l with
  | 0, l => l
  | _, [] => []
  | fuel + 1, c :: cs =>
    match cs with
    | c2 :: rest =>
      if c = dqChar ∧ c2 = dqChar ∧ (rest.takeWhile isWordChar) ≠ [] then
        let run := rest.takeWhile isWordChar
        match rest.drop run.length with
        | a :: b :: d :: rest3 =>
          if a = dqChar ∧ b = dqChar ∧ d = ':' then
            (dqChar :: run ++ [dqChar, ':']) ++ subUnDoubleKeys fuel rest3
          else c :: subUnDoubleKeys fuel cs
        | _ => c :: subUnDoubleKeys fuel cs
      else c :: subUnDoubleKeys fuel cs
    | [] => [c]

/-- Split `l` at its first whitespace run that contains a newline:
`some (pre, post)` with `l = pre ++ run ++ post`, where `run` is that
maximal whitespace run and `pre` contains no newline (its interior
whitespace runs are newline-free); `none` when no newline occurs. -/
def findNlRun (fuel : Nat) (l : List Char) : Option (List Char × List Char) :=
  match fuel, l with
  | 0, _ => none
  | _, [] => none
  | fuel + 1, c :: cs =>
    if pyIsSpace c then
      let run := (c :: cs).takeWhile pyIsSpace
      let post := (c :: cs).drop run.length
      if '\n' ∈ run then some ([], post)
      else
        match findNlRun fuel post with
        | some (pre, p2) => some (run ++ pre, p2)
        | none => none
    else
      match findNlRun fuel cs with
      | some (pre, p2) => some (c :: pre, p2)
      | none => none

/-- The replacement body `\1 \2` for one newline-containing quoted region
of `re.sub(r'"\s*([^"]*?)\s*\n\s*([^"]*?)\s*"', r'"\1 \2"', ...)`.
Backtracking resolution: the leading greedy `\s*` first absorbs the whole
leading whitespace run; the lazy `\1` then grows until a whitespace run
containing a newline follows (the greedy `\s*\n\s*` binds the last newline
of that run and absorbs the rest of it), so `\1` is the text between the
leading run and the first newline-bearing interior run, and `\2` is the
strip of what follows that run.  When every newline lies inside the
leading run, the engine backtracks the leading `\s*` to the region's last
newline, leaving `\1` empty and `\2` the strip of the remainder. -/
def nlRepl (region : List Char) : List Char :=
  let rest := region.dropWhile pyIsSpace
  if '\n' ∈ rest then
    match findNlRun (rest.length + 1) rest with
    | some (pre, post) => pre ++ ' ' :: pyStripL post
    | none => region
  else
    ' ' :: pyStripL rest

/-- Source: `re.sub(r'"\s*([^"]*?)\s*\n\s*([^"]*?)\s*"', r'"\1 \2"',
json_str, flags=re.MULTILINE)`.  A quote opens a region running to the next
quote; if the region contains a newline, the match is the whole region and
the replacement is `"` ++ `nlRepl region` ++ `"` (see `nlRepl` for the
greedy/lazy resolution); otherwise the opener is emitted and the closer is
retried as an opener. -/
def subNewlineInStrings (fuel : Nat) (l : List Char) : List Char :=
  match fuel, l with
  | 0, l => l
  | _, [] => []
  | fuel + 1, c :: cs =>
    if c = dqChar then
      match firstOccur cs [dqChar] with
      | some j =>
        let region := cs.take j
        if '\n' ∈ region then
          dqChar :: (nlRepl region ++ [dqChar]) ++
            subNewlineInStrings fuel (cs.drop (j + 1))
        else c :: subNewlineInStrings fuel cs
      | none => c :: subNewlineInStrings fuel cs
    else c :: subNewlineInStrings fuel cs

/-- The repair chain of the per-attempt `try` block (source lines 367-384):
strip, single→double quotes, trailing commas before `}` and `]`, the
backslash fix, key quoting, double-quoted-key fix, newline collapsing. -/
def repairSequence (l : List Char) : List Char :=
  let s0 := pyStripL l
  let s1 := subSingleQuotes s0
  let s2 := subTrailingComma rbrChar (s1.length + 1) s1
  let s3 := subTrailingComma ']' (s2.length + 1) s2
  let s4 := subBackslashFix (s3.length + 1) none s3
  let s5 := subQuoteKeys (s4.length + 1) s4
  let s6 := subUnDoubleKeys (s5.length + 1) s5
  subNewlineInStrings (s6.length + 1) s6

/-- Source: `re.sub(r'[^\x00-\x7F]+', ' ', json_str)`: runs of non-ASCII
characters become one space. -/
def subNonAscii (fuel : Nat) (l : List Char) : List Char :=
  match fuel, l with
  | 0, l => l
  | _, [] => []
  | fuel + 1, c :: cs =>
    if c.toNat ≥ 128 then
      ' ' :: subNonAscii fuel (cs.dropWhile fun d => d.toNat ≥ 128)
    else c :: subNonAscii fuel cs

/-- Source: `re.sub(r'\s+', ' ', cleaned)`: whitespace runs become one
space. -/
def subWsRuns (fuel : Nat) (l : List Char) : List Char :=
  match fuel, l with
  | 0, l => l
  | _, [] => []
  | fuel + 1, c :: cs =>
    if pyIsSpace c then ' ' :: subWsRuns fuel (cs.dropWhile pyIsSpace)
    else c :: subWsRuns fuel cs

/-- Source: `re.sub(r',\s*([}\]])', r'\1', cleaned)`. -/
def subTrailingCommaBoth (fuel : Nat) (l : List Char) : List Char :=
  match fuel, l with
  | 0, l => l
  | _, [] => []
  | fuel + 1, c :: cs =>
    if c = ',' then
      match cs.dropWhile pyIsSpace with
      | d :: rest2 =>
        if d = rbrChar ∨ d = ']' then d :: subTrailingCommaBoth fuel rest2
        else c :: subTrailingCommaBoth fuel cs
      | [] => c :: subTrailingCommaBoth fuel cs
    else c :: subTrailingCommaBoth fuel cs

/-- The aggressive repair applied when parsing attempt 1 fails (source
lines 397-403): drop non-ASCII, collapse whitespace, strip trailing
commas. -/
def aggressiveClean (l : List Char) : List Char :=
  let c1 := subNonAscii (l.length + 1) l
  let c2 := subWsRuns (c1.length + 1) c1
  subTrailingCommaBoth (c2.length + 1) c2

/-! ## `_manual_json_extraction` -/

/-- Match of `r'"<key>":\s*"([^"]*)"'` (IGNORECASE) at the start of `l`:
the literal `"key":`, maximal whitespace, a quote, then the capture runs to
the next quote. -/
def matchFieldAt (key : List Char) (l : List Char) : Option (List Char) :=
  let pat := dqChar :: key ++ [dqChar, ':']
  if startsWithCI pat l then
    match (l.drop pat.length).dropWhile pyIsSpace with
    | c :: cs =>
      if c = dqChar then
        match firstOccur cs [dqChar] with
        | some j => some (cs.take j)
        | none => none
      else none
    | [] => none
  else none

/-- `re.search` for the field pattern: leftmost position where it
matches. -/
def findFieldRaw (fuel : Nat) (key : List Char) (l : List Char) :
    Option (List Char) :=
  match fuel, l with
  | 0, _ => none
  | _, [] => none
  | fuel + 1, c :: cs =>
    match matchFieldAt key (c :: cs) with
    | some v => some v
    | none => findFieldRaw fuel key cs

/-- The value stored for one patterned field of `_manual_json_extraction`:
the stripped capture if it is non-empty and not the string `null`
(source lines 479-485), else `none` (field stays at its default and does
not count). -/
def fieldValue (key : String) (text : List Char) : Option String :=
  match findFieldRaw (text.length + 1) key.data text with
  | none => none
  | some raw =>
    let v := pyStripL raw
    if v ≠ [] ∧ pyLowerL v ≠ "null".data then some ⟨v⟩ else none

/-- Match of `r'"borrower_names":\s*\[(.*?)\]'` (DOTALL, case-sensitive) at
the start of `l`: the lazy capture runs to the first `]`. -/
def matchBorrowerAt (l : List Char) : Option (List Char) :=
  let pat := dqChar :: "borrower_names".data ++ [dqChar, ':']
  if startsWithL pat l then
    match (l.drop pat.length).dropWhile pyIsSpace with
    | c :: cs =>
      if c = '[' then
        match firstOccur cs [']'] with
        | some j => some (cs.take j)
        | none => none
      else none
    | [] => none
  else none

/-- `re.search` for the borrower-names pattern. -/
def findBorrowerRaw (fuel : Nat) (l : List Char) : Option (List Char) :=
  match fuel, l with
  | 0, _ => none
  | _, [] => none
  | fuel + 1, c :: cs =>
    match matchBorrowerAt (c :: cs) with
    | some v => some v
    | none => findBorrowerRaw fuel cs

/-- `re.findall(r'"([^"]*)"', content)`: the pieces between successive
quote pairs. -/
def quotedPieces (fuel : Nat) (l : List Char) : List (List Char) :=
  match fuel, l with
  | 0, _ => []
  | _, [] => []
  | fuel + 1, c :: cs =>
    if c = dqChar then
      match firstOccur cs [dqChar] with
      | some j => cs.take j :: quotedPieces fuel (cs.drop (j + 1))
      | none => []
    else quotedPieces fuel cs

/-- `Option.isSome` count. -/
def countSomes (l : List (Option String)) : Nat :=
  (l.filter Option.isSome).length

/-- A Python value that is a string or `None`. -/
def jOfOpt : Option String → Json
  | none => Json.null
  | some s => Json.str s

/-- The 26-key result dict of `_manual_json_extraction` (source lines
431-458), in initialization order; patterned fields carry the value their
pattern recovered (or `null`), unpatterned fields keep their explicit
defaults (`null`, `[]` for `borrower_names`, the empty mapping for
`attorney_info`, `"LOW"` for `ai_confidence`). -/
def manualResultKvs (case_number filing_date case_type court plaintiff
    defendant property_address legal_description original_loan_amount
    deed_of_trust_number sale_date sale_time sale_location
    lender_name : Option String) (borrower_names : List String) :
    List (String × Json) :=
  [("case_number", jOfOpt case_number),
   ("filing_date", jOfOpt filing_date),
   ("case_type", jOfOpt case_type),
   ("court", jOfOpt court),
   ("plaintiff", jOfOpt plaintiff),
   ("defendant", jOfOpt defendant),
   ("trustee", Json.null),
   ("property_address", jOfOpt property_address),
   ("legal_description", jOfOpt legal_description),
   ("parcel_number", Json.null),
   ("lot_block_subdivision", Json.null),
   ("original_loan_amount", jOfOpt original_loan_amount),
   ("unpaid_balance", Json.null),
   ("total_debt", Json.null),
   ("deed_of_trust_date", Json.null),
   ("deed_of_trust_recording_date", Json.null),
   ("deed_of_trust_volume_page", Json.null),
   ("deed_of_trust_instrument_number", Json.null),
   ("deed_of_trust_number", jOfOpt deed_of_trust_number),
   ("sale_date", jOfOpt sale_date),
   ("sale_time", jOfOpt sale_time),
   ("sale_location", jOfOpt sale_location),
   ("borrower_names", Json.arr (borrower_names.map Json.str)),
   ("lender_name", jOfOpt lender_name),
   ("attorney_info", Json.obj []),
   ("ai_confidence", Json.str "LOW")]

/-- The quote-pair pieces of the borrower-names capture, if the pattern
matched. -/
def borrowerPieces (text : List Char) : List (List Char) :=
  match findBorrowerRaw (text.length + 1) text with
  | some content => quotedPieces (content.length + 1) content
  | none => []

/-- How many fields `_manual_json_extraction` recovers from `text`: one per
patterned field whose (stripped, non-`null`) value is present, plus one if
the borrower-names pattern found a non-empty quote list. -/
def manualExtractedCount (text : List Char) : Nat :=
  countSomes
    [fieldValue "case_number" text, fieldValue "filing_date" text,
     fieldValue "case_type" text, fieldValue "court" text,
     fieldValue "plaintiff" text, fieldValue "defendant" text,
     fieldValue "property_address" text, fieldValue "legal_description" text,
     fieldValue "original_loan_amount" text,
     fieldValue "deed_of_trust_number" text, fieldValue "sale_date" text,
     fieldValue "sale_time" text, fieldValue "sale_location" text,
     fieldValue "lender_name" text] +
  (if borrowerPieces text = [] then 0 else 1)

/-- `_manual_json_extraction` (source lines 427-504): the fixed result dict
with each patterned field filled from its dedicated pattern, returned only
when at least 3 fields were recovered.  The borrower list keeps the
stripped, non-empty pieces. -/
def manual_json_extraction (response : String) : Option (List (String × Json)) :=
  let t := response.data
  let borrowerNames : List String :=
    ((borrowerPieces t).map fun b => (⟨pyStripL b⟩ : String)).filter
      fun s => s ≠ ""
  if manualExtractedCount t ≥ 3 then
    some (manualResultKvs (fieldValue "case_number" t)
      (fieldValue "filing_date" t) (fieldValue "case_type" t)
      (fieldValue "court" t) (fieldValue "plaintiff" t)
      (fieldValue "defendant" t) (fieldValue "property_address" t)
      (fieldValue "legal_description" t)
      (fieldValue "original_loan_amount" t)
      (fieldValue "deed_of_trust_number" t) (fieldValue "sale_date" t)
      (fieldValue "sale_time" t) (fieldValue "sale_location" t)
      (fieldValue "lender_name" t) borrowerNames)
  else none

/-! ## `_extract_json_from_response` -/

/-- Markdown-fence stripping (source lines 331-342): a ```` ```json ````
fence (located case-insensitively) with a closing ```` ``` ```` selects the
fenced body; otherwise a generic ```` ``` ```` pair (`find`/`rfind`)
selects the enclosed body; either body is stripped.  Failing fences leave
the text unchanged. -/
def stripFences (t0 : List Char) : List Char :=
  if containsSub (pyLowerL t0) "```json".data then
    match firstOccur (pyLowerL t0) "```json".data with
    | some i =>
      let start := i + 7
      match firstOccur (t0.drop start) "```".data with
      | some jrel => pyStripL ((t0.drop start).take jrel)
      | none => t0
    | none => t0
  else if containsSub t0 "```".data then
    match firstOccur t0 "```".data with
    | some i =>
      let start := i + 3
      match lastOccur t0 "```".data with
      | some e =>
        if e > start then pyStripL ((t0.drop start).take (e - start)) else t0
      | none => t0
    | none => t0
  else t0

/-- The slice from the first `{` to the last `}` (source lines 348-351),
when both exist in the right order. -/
def bracesSpan (t : List Char) : Option (List Char) :=
  match firstOccur t [lbrChar], lastOccur t [rbrChar] with
  | some a, some b => if b + 1 > a then some ((t.drop a).take (b + 1 - a)) else none
  | _, _ => none

/-- The candidate strings of the parse loop (source lines 345-362): the
brace span, the brace span of the stripped text after the last `JSON:`
marker (when the marker occurs), and the whole text. -/
def jsonAttempts (t1 : List Char) : List (List Char) :=
  (match bracesSpan t1 with
   | some s => [s]
   | none => []) ++
  (if containsSub t1 "JSON:".data then
    match bracesSpan (pyStripL (afterLast t1 "JSON:".data)) with
    | some s => [s]
    | none => []
   else []) ++
  [t1]

/-- The parse loop (source lines 364-409): each candidate is repaired and
parsed; a parsed dict is returned; on a parse error of attempt 1 only, the
aggressively cleaned repair is parsed too; a parsed non-dict falls through
to the next candidate. -/
def tryAttemptsLoop : Nat → List (List Char) → Option (List (String × Json))
  | _, [] => none
  | idx, s :: rest =>
    let repaired := repairSequence s
    match pyJsonLoads ⟨repaired⟩ with
    | some (Json.obj kvs) => some kvs
    | some _ => tryAttemptsLoop (idx + 1) rest
    | none =>
      if idx = 1 then
        match pyJsonLoads ⟨aggressiveClean repaired⟩ with
        | some (Json.obj kvs) => some kvs
        | _ => tryAttemptsLoop (idx + 1) rest
      else tryAttemptsLoop (idx + 1) rest

/-- `_extract_json_from_response` (source lines 319-425): empty input is
`None`; the response is stripped, markdown fences are removed, the
candidate list is tried through the repair pipeline, and
`_manual_json_extraction` is the last resort (its non-empty dict is always
truthy). -/
def extract_json_from_response (responseText : String) :
    Option (List (String × Json)) :=
  if responseText = "" then none
  else
    let t1 := stripFences (pyStripL responseText.data)
    match tryAttemptsLoop 1 (jsonAttempts t1) with
    | some kvs => some kvs
    | none => manual_json_extraction ⟨t1⟩

/-! ## `_make_api_request`

The generative collaborator is abstracted by `gen : Nat → GenOutcome`, the
outcome of the attempt-numbered `generate_content` call; the prompt text
never influences the modelled control flow.  `time.sleep` calls are
recorded as trace events (the two sleep sites of the source are tagged
separately). -/

/-- Outcome of one `generate_content` call: the call raised (the request
counter is not bumped), or it returned with either usable response text or
none (no object / safety block / missing parts / empty text — all raised
and caught inside the attempt after the counter was bumped). -/
inductive GenOutcome where
  | raised : GenOutcome
  | returned : Option String → GenOutcome

/-- Trace events of `_make_api_request`: the 2-second rate-limit sleep
(source line 245), the backoff sleep after a failed attempt (source line
314), and a `generate_content` call. -/
inductive ApiEvent where
  | rateSleep : Nat → ApiEvent
  | backoffSleep : Nat → ApiEvent
  | callModel : ApiEvent

/-- Result of one attempt body (source lines 241-309): a dict parsed from
the response text, provided it is truthy (non-empty); anything else raises
inside the attempt and is caught. -/
def attemptOutcome (o : GenOutcome) : Option (List (String × Json)) :=
  match o with
  | GenOutcome.raised => none
  | GenOutcome.returned none => none
  | GenOutcome.returned (some s) =>
    match extract_json_from_response s with
    | some [] => none
    | some (kv :: kvs) => some (kv :: kvs)
    | none => none

/-- The retry loop of `_make_api_request` (source lines 240-317):
`remaining` attempts are left, `attempt` is the 0-based attempt number,
`apiRequests` the current `self.api_requests` counter (bumped only when
`generate_content` returned).  A failed non-final attempt sleeps
`3 * (attempt + 1)` seconds. -/
def make_api_request_loop (gen : Nat → GenOutcome) :
    Nat → Nat → Nat → List ApiEvent × Option (List (String × Json))
  | 0, _, _ => ([], none)
  | remaining + 1, attempt, apiRequests =>
    let pre : List ApiEvent :=
      if apiRequests > 0 then [ApiEvent.rateSleep 2] else []
    let o := gen attempt
    let bumped : Nat :=
      match o with
      | GenOutcome.raised => apiRequests
      | GenOutcome.returned _ => apiRequests + 1
    match attemptOutcome o with
    | some kvs => (pre ++ [ApiEvent.callModel], some kvs)
    | none =>
      let backoff : List ApiEvent :=
        if attempt < 3 - 1 then [ApiEvent.backoffSleep (3 * (attempt + 1))]
        else []
      let rec2 := make_api_request_loop gen remaining (attempt + 1) bumped
      (pre ++ ApiEvent.callModel :: backoff ++ rec2.1, rec2.2)

/-- `_make_api_request` with `max_retries = 3`, starting from an
`api_requests` counter of `n`: the event trace and the returned dict
(`none` = the Python `None` return after exhaustion). -/
def make_api_request (gen : Nat → GenOutcome) (n : Nat) :
    List ApiEvent × Option (List (String × Json)) :=
  make_api_request_loop gen 3 0 n

/-- Number of `generate_content` invocations in a trace. -/
def countCalls (evs : List ApiEvent) : Nat :=
  (evs.filterMap fun e =>
    match e with
    | ApiEvent.callModel => some ()
    | _ => none).length

/-- The backoff delays of a trace, in order. -/
def backoffDelays (evs : List ApiEvent) : List Nat :=
  evs.filterMap fun e =>
    match e with
    | ApiEvent.backoffSleep s => some s
    | _ => none

/-! ## `_fallback_extraction`

Each regex of the fallback battery (source lines 598-661) is embedded as a
dedicated scanner.  The address/name patterns share the analysis of
`[:\s]+([^\n]+)`: after the separator run the greedy `[^\n]+` captures the
rest of the current line (for the address patterns the `(?=\n\n|\n[A-Z]{3,}|$)`
lookahead is vacuous there because `$` under `re.MULTILINE` matches at
every end of line, and the lazy `(?:\n...)*?` group then takes zero
repetitions); when the separator run reaches the end of the text,
backtracking shortens the run and the capture becomes the last
non-newline character of the run, if the run can spare one. -/

/-- Capture of `[:\s]+([^\n]+)` at the start of `l` (see section
comment). -/
def lineCapture (l : List Char) : Option (List Char) :=
  let sep : Char → Bool := fun c => c = ':' || pyIsSpace c
  let run := l.takeWhile sep
  if run = [] then none
  else
    match l.drop run.length with
    | c :: rest => some ((c :: rest).takeWhile fun d => d ≠ '\n')
    | [] =>
      match (run.drop 1).reverse.dropWhile (fun d => d = '\n') with
      | d :: _ => some [d]
      | [] => none

/-- `re.search` for `LITERAL[:\s]+([^\n]+)` (IGNORECASE): leftmost
occurrence of the literal where the separator-and-capture part succeeds. -/
def searchLiteralLine (lit : List Char) (fuel : Nat) (l : List Char) :
    Option (List Char) :=
  match fuel, l with
  | 0, _ => none
  | _, [] => none
  | fuel + 1, c :: cs =>
    if startsWithCI lit (c :: cs) then
      match lineCapture ((c :: cs).drop lit.length) with
      | some cap => some cap
      | none => searchLiteralLine lit fuel cs
    else searchLiteralLine lit fuel cs

/-- The street-type keywords of address pattern 3, in alternation order. -/
def addressKeywords : List (List Char) :=
  ["STREET".data, "ST".data, "DRIVE".data, "DR".data, "LANE".data,
   "LN".data, "AVENUE".data, "AVE".data, "ROAD".data, "RD".data,
   "BOULEVARD".data, "BLVD".data, "CIRCLE".data, "CIR".data, "COURT".data,
   "CT".data, "PLACE".data, "PL".data, "TRAIL".data, "TRL".data]

/-- Are there five consecutive digits of `nl` starting at `r`? -/
def fiveDigitsAt (nl : List Char) (r : Nat) : Bool :=
  ((nl.drop r).take 5).length = 5 && ((nl.drop r).take 5).all Char.isDigit

/-- The `(?:TX|TEXAS)` alternation at position `q` of `nl`: `TX` is tried
first; the result is the consumed length. -/
def txAltLen (nl : List Char) (q : Nat) : Option Nat :=
  if startsWithCI "TX".data (nl.drop q) then some 2
  else if startsWithCI "TEXAS".data (nl.drop q) then some 5
  else none

/-- The optional second line of address pattern 3,
`(?:\n[^\n]*(?:TX|TEXAS)[^\n]*\d{5})?`, applied to the next line `nl`:
greedy resolution picks the rightmost `TX`/`TEXAS` occurrence that still
has five consecutive digits after it, then the rightmost such digit block;
the result is how many characters of `nl` the group consumes. -/
def txZipEnd (nl : List Char) : Option Nat :=
  let rFor : Nat → Option Nat := fun e =>
    (List.range nl.length).reverse.find? fun r =>
      decide (e ≤ r) && fiveDigitsAt nl r
  match (List.range nl.length).reverse.find? (fun q =>
      match txAltLen nl q with
      | some len => (rFor (q + len)).isSome
      | none => false) with
  | some q =>
    match txAltLen nl q with
    | some len => (rFor (q + len)).map (· + 5)
    | none => none
  | none => none

/-- Address pattern 3 at the start of `l`:
`(\d+[^\n]*(?:STREET|ST|...)[^\n]*(?:\n[^\n]*(?:TX|TEXAS)[^\n]*\d{5})?)`.
The match starts on a digit; the greedy `[^\n]*` picks the rightmost
keyword occurrence on the same line (alternation order at that spot); the
capture then runs to the end of the line, plus the optional Texas/ZIP
second line when it matches. -/
def matchStreetAt (l : List Char) : Option (List Char) :=
  match l with
  | [] => none
  | c :: _ =>
    if c.isDigit then
      let line := l.takeWhile fun d => d ≠ '\n'
      let digits := line.takeWhile Char.isDigit
      let seg := line.drop digits.length
      match (List.range seg.length).reverse.find? (fun p =>
          (addressKeywords.find? fun kw => startsWithCI kw (seg.drop p)).isSome) with
      | some _ =>
        match l.drop line.length with
        | nlChar :: after =>
          let nl := after.takeWhile fun d => d ≠ '\n'
          match txZipEnd nl with
          | some e => some (line ++ nlChar :: nl.take e)
          | none => some line
        | [] => some line
      | none => none
    else none

/-- `re.search` for address pattern 3. -/
def searchStreet (fuel : Nat) (l : List Char) : Option (List Char) :=
  match fuel, l with
  | 0, _ => none
  | _, [] => none
  | fuel + 1, c :: cs =>
    match matchStreetAt (c :: cs) with
    | some cap => some cap
    | none => searchStreet fuel cs

/-- The address loop of `_fallback_extraction` (source lines 598-610):
each pattern's first match is kept only when its stripped capture is
longer than 10 characters, and the first such capture wins. -/
def fallback_address (t : List Char) : Option String :=
  let step : Option (List Char) → Option String → Option String :=
    fun res next =>
      match res with
      | some cap =>
        if (pyStripL cap).length > 10 then some (⟨pyStripL cap⟩ : String)
        else next
      | none => next
  step (searchLiteralLine "PROPERTY ADDRESS".data (t.length + 1) t)
    (step (searchLiteralLine "PROPERTY".data (t.length + 1) t)
      (step (searchStreet (t.length + 1) t) none))

/-- `re.search` for `KW[S]?[:\s]+([^\n]+)` (IGNORECASE): the optional `S`
is taken when present (declining it cannot help, since an `s` is not a
separator). -/
def searchNameLine (kw : List Char) (fuel : Nat) (l : List Char) :
    Option (List Char) :=
  match fuel, l with
  | 0, _ => none
  | _, [] => none
  | fuel + 1, c :: cs =>
    if startsWithCI kw (c :: cs) then
      let afterKw := (c :: cs).drop kw.length
      let afterS :=
        match afterKw with
        | d :: rest => if asciiLowerChar d = 's' then rest else afterKw
        | [] => afterKw
      match lineCapture afterS with
      | some cap => some cap
      | none => searchNameLine kw fuel cs
    else searchNameLine kw fuel cs

/-- The borrower/grantor/debtor loop of `_fallback_extraction` (source
lines 612-626): the first pattern whose stripped capture has length > 3
sets the defendant string and the `AND`-split borrower list. -/
def fallback_names (t : List Char) : Option (String × List String) :=
  let step : Option (List Char) → Option (String × List String) →
      Option (String × List String) :=
    fun cap next =>
      match cap with
      | some c =>
        let names := pyStripL c
        if names ≠ [] ∧ names.length > 3 then
          some ((⟨names⟩ : String),
            ((pySplitOn names "AND".data).map fun n =>
                (⟨pyStripL n⟩ : String)).filter fun s => s ≠ "")
        else next
      | none => next
  step (searchNameLine "BORROWER".data (t.length + 1) t)
    (step (searchNameLine "GRANTOR".data (t.length + 1) t)
      (step (searchNameLine "DEBTOR".data (t.length + 1) t) none))

/-- Generic `re.findall`: `matcher` gives the match length and the
captured text at a position; scanning resumes after each match. -/
def findallCaptures (matcher : List Char → Option (Nat × List Char))
    (fuel : Nat) (l : List Char) : List (List Char) :=
  match fuel, l with
  | 0, _ => []
  | _, [] => []
  | fuel + 1, c :: cs =>
    match matcher (c :: cs) with
    | some (n, cap) =>
      cap :: findallCaptures matcher fuel ((c :: cs).drop n)
    | none => findallCaptures matcher fuel cs

/-- Money pattern 1, `\$[\d,]+\.?\d*`, at the start of `l` (whole match
captured). -/
def matchMoneyAAt (l : List Char) : Option (Nat × List Char) :=
  match l with
  | [] => none
  | c :: cs =>
    if c = '$' then
      let body := cs.takeWhile fun d => d.isDigit || d = ','
      if body = [] then none
      else
        let rest := cs.drop body.length
        let dotFrac : List Char :=
          match rest with
          | d :: r2 => if d = '.' then d :: r2.takeWhile Char.isDigit else []
          | [] => []
        let m := c :: body ++ dotFrac
        some (m.length, m)
    else none

/-- Money pattern 2, `(?:AMOUNT|SUM|DEBT)[:\s]+\$?([\d,]+\.?\d*)`
(IGNORECASE), at the start of `l` (group 1 captured). -/
def matchMoneyBAt (l : List Char) : Option (Nat × List Char) :=
  let kwLen : Option Nat :=
    if startsWithCI "AMOUNT".data l then some 6
    else if startsWithCI "SUM".data l then some 3
    else if startsWithCI "DEBT".data l then some 4
    else none
  match kwLen with
  | none => none
  | some k =>
    let afterKw := l.drop k
    let sep := afterKw.takeWhile fun d => d = ':' || pyIsSpace d
    if sep = [] then none
    else
      let rest := afterKw.drop sep.length
      let dollarLen : Nat :=
        match rest with
        | d :: _ => if d = '$' then 1 else 0
        | [] => 0
      let rest2 := rest.drop dollarLen
      let body := rest2.takeWhile fun d => d.isDigit || d = ','
      if body = [] then none
      else
        let rest3 := rest2.drop body.length
        let dotFrac : List Char :=
          match rest3 with
          | d :: r2 => if d = '.' then d :: r2.takeWhile Char.isDigit else []
          | [] => []
        let cap := body ++ dotFrac
        some (k + sep.length + dollarLen + cap.length, cap)

/-- Python `float(s) > 1000` for the comma/dollar-cleaned match text
(digits with at most one dot): exact decimal comparison, `False` when
`float` would raise (no digits at all). -/
def floatGt1000 (s : List Char) : Bool :=
  let ip := s.takeWhile Char.isDigit
  let rest := s.drop ip.length
  let fp : List Char :=
    match rest with
    | d :: r => if d = '.' then r.takeWhile Char.isDigit else []
    | [] => []
  if ip = [] ∧ fp = [] then false
  else decide (digitsToNat ip * 10 ^ fp.length + digitsToNat fp >
    1000 * 10 ^ fp.length)

/-- The qualifying monetary matches of `_fallback_extraction` (source
lines 628-643): all pattern-1 matches then all pattern-2 captures, keeping
the original text of those whose comma/dollar-cleaned value exceeds
1000. -/
def fallback_amounts (t : List Char) : List String :=
  ((findallCaptures matchMoneyAAt (t.length + 1) t ++
    findallCaptures matchMoneyBAt (t.length + 1) t).filter fun m =>
      floatGt1000 ((m.filter fun c => c ≠ ',').filter fun c => c ≠ '$')).map
    fun m => (⟨m⟩ : String)

/-- Prefix a dollar sign unless already present (source line 646). -/
def dollarize (s : String) : String :=
  match s.data with
  | c :: _ => if c = '$' then s else ⟨'$' :: s.data⟩
  | [] => ⟨['$']⟩

/-- Exactly `n` leading digits? -/
def digitsRunN (l : List Char) (n : Nat) : Bool :=
  (l.take n).length = n && (l.take n).all Char.isDigit

/-- A date separator, slash or dash. -/
def isDateSep (c : Char) : Bool := c = '/' || c = '-'

/-- Date pattern 1, slash-or-dash separated `\d{1,2} \d{1,2} \d{4}`, at the start of `l`
(match length); `{1,2}` tries two digits before one. -/
def matchD1At (l : List Char) : Option Nat :=
  let tryB : List Char → Nat → Nat → Option Nat := fun l2 consumed b =>
    if digitsRunN l2 b then
      match l2.drop b with
      | s2 :: l4 =>
        if isDateSep s2 && digitsRunN l4 4 then some (consumed + b + 1 + 4)
        else none
      | [] => none
    else none
  let tryA : Nat → Option Nat := fun a =>
    if digitsRunN l a then
      match l.drop a with
      | s1 :: l2 =>
        if isDateSep s1 then
          match tryB l2 (a + 1) 2 with
          | some n => some n
          | none => tryB l2 (a + 1) 1
        else none
      | [] => none
    else none
  match tryA 2 with
  | some n => some n
  | none => tryA 1

/-- Date pattern 2, slash-or-dash separated `\d{4} \d{1,2} \d{1,2}`, at the start of `l`. -/
def matchD2At (l : List Char) : Option Nat :=
  if digitsRunN l 4 then
    match l.drop 4 with
    | s1 :: l2 =>
      if isDateSep s1 then
        let tryB : Nat → Option Nat := fun b =>
          if digitsRunN l2 b then
            match l2.drop b with
            | s2 :: l4 =>
              if isDateSep s2 then
                if digitsRunN l4 2 then some (4 + 1 + b + 1 + 2)
                else if digitsRunN l4 1 then some (4 + 1 + b + 1 + 1)
                else none
              else none
            | [] => none
          else none
        match tryB 2 with
        | some n => some n
        | none => tryB 1
      else none
    | [] => none
  else none

/-- The month names of date pattern 3, in alternation order. -/
def monthNames : List (List Char) :=
  ["JANUARY".data, "FEBRUARY".data, "MARCH".data, "APRIL".data, "MAY".data,
   "JUNE".data, "JULY".data, "AUGUST".data, "SEPTEMBER".data,
   "OCTOBER".data, "NOVEMBER".data, "DECEMBER".data]

/-- Date pattern 3, `(?:JANUARY|...|DECEMBER)\s+\d{1,2},?\s+\d{4}`
(IGNORECASE), at the start of `l`. -/
def matchD3At (l : List Char) : Option Nat :=
  match monthNames.find? fun m => startsWithCI m l with
  | none => none
  | some m =>
    let l1 := l.drop m.length
    let ws1 := l1.takeWhile pyIsSpace
    if ws1 = [] then none
    else
      let l2 := l1.drop ws1.length
      let tryD : Nat → Option Nat := fun d =>
        if digitsRunN l2 d then
          let l3 := l2.drop d
          let commaLen : Nat :=
            match l3 with
            | e :: _ => if e = ',' then 1 else 0
            | [] => 0
          let l4 := l3.drop commaLen
          let ws2 := l4.takeWhile pyIsSpace
          if ws2 = [] then none
          else if digitsRunN (l4.drop ws2.length) 4 then
            some (m.length + ws1.length + d + commaLen + ws2.length + 4)
          else none
        else none
      match tryD 2 with
      | some n => some n
      | none => tryD 1

/-- All date matches of `_fallback_extraction` (source lines 649-658), in
pattern order. -/
def fallback_dates (t : List Char) : List String :=
  ((findallCaptures (fun l => (matchD1At l).map fun n => (n, l.take n))
      (t.length + 1) t ++
    findallCaptures (fun l => (matchD2At l).map fun n => (n, l.take n))
      (t.length + 1) t ++
    findallCaptures (fun l => (matchD3At l).map fun n => (n, l.take n))
      (t.length + 1) t).map fun m => (⟨m⟩ : String))

/-- A Python truthiness test for an optional string field of the fallback
dict (`None` and the empty string are falsy). -/
def pyTruthyOptStr : Option String → Bool
  | none => false
  | some s => s ≠ ""

/-- The 26-key result dict of `_fallback_extraction` (source lines
565-592), in initialization order; `case_type` is preset to
`"FORECLOSURE"` and `ai_confidence` to `"LOW"`. -/
def fallbackKvs (property_address defendant total_debt
    deed_of_trust_date : Option String) (borrower_names : List String) :
    List (String × Json) :=
  [("case_number", Json.null),
   ("filing_date", Json.null),
   ("case_type", Json.str "FORECLOSURE"),
   ("court", Json.null),
   ("plaintiff", Json.null),
   ("defendant", jOfOpt defendant),
   ("trustee", Json.null),
   ("property_address", jOfOpt property_address),
   ("legal_description", Json.null),
   ("parcel_number", Json.null),
   ("lot_block_subdivision", Json.null),
   ("original_loan_amount", Json.null),
   ("unpaid_balance", Json.null),
   ("total_debt", jOfOpt total_debt),
   ("deed_of_trust_date", jOfOpt deed_of_trust_date),
   ("deed_of_trust_recording_date", Json.null),
   ("deed_of_trust_volume_page", Json.null),
   ("deed_of_trust_instrument_number", Json.null),
   ("deed_of_trust_number", Json.null),
   ("sale_date", Json.null),
   ("sale_time", Json.null),
   ("sale_location", Json.null),
   ("borrower_names", Json.arr (borrower_names.map Json.str)),
   ("lender_name", Json.null),
   ("attorney_info", Json.obj []),
   ("ai_confidence", Json.str "LOW")]

/-- `_fallback_extraction` (source lines 561-674): regex battery over the
extracted text; the dict is returned only when at least one of
`property_address`, `defendant`, `total_debt` is truthy.  The financial
field takes the first qualifying amount (dollar-prefixed), the date field
the first date match. -/
def fallback_extraction (pdfText : String) : Option (List (String × Json)) :=
  let t := pdfText.data
  let addr := fallback_address t
  let nm := fallback_names t
  let amounts := fallback_amounts t
  let dates := fallback_dates t
  let defendant := nm.map Prod.fst
  let borrowers : List String :=
    match nm with
    | some p => p.2
    | none => []
  let totalDebt := amounts.head?.map dollarize
  let dotd := dates.head?
  if pyTruthyOptStr addr || pyTruthyOptStr defendant || pyTruthyOptStr totalDebt then
    some (fallbackKvs addr defendant totalDebt dotd borrowers)
  else none

/-! ## `ForeClosureData` and `parse_pdf` -/

/-- The `ForeClosureData` dataclass (source lines 27-78).  Field values
are Python runtime values (`Json`); `Json.null` is Python `None`. -/
structure ForeClosureData where
  case_number : Json
  filing_date : Json
  case_type : Json
  court : Json
  plaintiff : Json
  defendant : Json
  trustee : Json
  property_address : Json
  legal_description : Json
  parcel_number : Json
  lot_block_subdivision : Json
  original_loan_amount : Json
  unpaid_balance : Json
  total_debt : Json
  deed_of_trust_date : Json
  deed_of_trust_recording_date : Json
  deed_of_trust_volume_page : Json
  deed_of_trust_instrument_number : Json
  deed_of_trust_number : Json
  sale_date : Json
  sale_time : Json
  sale_location : Json
  borrower_names : Json
  lender_name : Json
  attorney_info : Json
  ai_confidence : Json
  extraction_timestamp : Json
  source_pdf_file : Json

/-- `ForeClosureData.__post_init__` (source lines 74-78): a `None`
`borrower_names` becomes the empty list, a `None` `attorney_info` the
empty mapping; every other value is left alone.  The dataclass constructor
always runs this after field assignment. -/
def fcPostInit (d : ForeClosureData) : ForeClosureData :=
  ForeClosureData.mk d.case_number d.filing_date d.case_type d.court
    d.plaintiff d.defendant d.trustee d.property_address
    d.legal_description d.parcel_number d.lot_block_subdivision
    d.original_loan_amount d.unpaid_balance d.total_debt
    d.deed_of_trust_date d.deed_of_trust_recording_date
    d.deed_of_trust_volume_page d.deed_of_trust_instrument_number
    d.deed_of_trust_number d.sale_date d.sale_time d.sale_location
    (match d.borrower_names with
     | Json.null => Json.arr []
     | v => v)
    d.lender_name
    (match d.attorney_info with
     | Json.null => Json.obj []
     | v => v)
    d.ai_confidence d.extraction_timestamp d.source_pdf_file

/-- Python `d.get(k)` on a dict, as a runtime value (`None` when the key
is missing). -/
def pyGetJ (kvs : List (String × Json)) (k : String) : Json :=
  (dictGet kvs k).getD Json.null

/-- Build the `ForeClosureData` of `parse_pdf` (source lines 527-556) from
the response dict, the timestamp and the source file name; `.get` defaults
are `[]` for `borrower_names` and the empty mapping for `attorney_info`,
and `__post_init__` runs afterwards. -/
def buildForeClosureData (d : List (String × Json)) (timestampNow : String)
    (pdfFilename : String) : ForeClosureData :=
  fcPostInit (ForeClosureData.mk
    (pyGetJ d "case_number") (pyGetJ d "filing_date") (pyGetJ d "case_type")
    (pyGetJ d "court") (pyGetJ d "plaintiff") (pyGetJ d "defendant")
    (pyGetJ d "trustee") (pyGetJ d "property_address")
    (pyGetJ d "legal_description") (pyGetJ d "parcel_number")
    (pyGetJ d "lot_block_subdivision") (pyGetJ d "original_loan_amount")
    (pyGetJ d "unpaid_balance") (pyGetJ d "total_debt")
    (pyGetJ d "deed_of_trust_date") (pyGetJ d "deed_of_trust_recording_date")
    (pyGetJ d "deed_of_trust_volume_page")
    (pyGetJ d "deed_of_trust_instrument_number")
    (pyGetJ d "deed_of_trust_number") (pyGetJ d "sale_date")
    (pyGetJ d "sale_time") (pyGetJ d "sale_location")
    ((dictGet d "borrower_names").getD (Json.arr []))
    (pyGetJ d "lender_name")
    ((dictGet d "attorney_info").getD (Json.obj []))
    (pyGetJ d "ai_confidence") (Json.str timestampNow)
    (Json.str pdfFilename))

/-- `parse_pdf` (source lines 506-559), as a function of the extracted
text, the `_make_api_request` result (`none` is Python's falsy `None`; an
empty dict is equally falsy), the timestamp and the file name: empty
stripped text is `None`; a falsy generative result falls back to
`_fallback_extraction`; a falsy fallback is `None`; otherwise the
`ForeClosureData` is constructed from the chosen dict. -/
def parse_pdf (pdfText : String)
    (aiResponse : Option (List (String × Json))) (timestampNow : String)
    (pdfFilename : String) : Option ForeClosureData :=
  if pyStrip pdfText = "" then none
  else
    let truthyAi : Option (List (String × Json)) :=
      match aiResponse with
      | some [] => none
      | some (kv :: kvs) => some (kv :: kvs)
      | none => none
    let resp : Option (List (String × Json)) :=
      match truthyAi with
      | some r => some r
      | none =>
        match fallback_extraction pdfText with
        | some [] => none
        | some (kv :: kvs) => some (kv :: kvs)
        | none => none
    match resp with
    | none => none
    | some d => some (buildForeClosureData d timestampNow pdfFilename)

/-! ## `extract_pdf_text`

The three extraction libraries are abstracted by the page texts they
deliver and whether their `try` block raised; the `text` accumulator of
the source persists across the first two blocks, so PyPDF2's check runs on
the concatenation of both strategies' output. -/

/-- One pdfplumber run (source lines 114-125): the `page.extract_text()`
results of the pages the loop processed (Python `None` is `none`) and
whether the block raised (in which case the accept check is skipped but
the already-appended text is kept). -/
structure PlumberRun where
  pages : List (Option String)
  raised : Bool

/-- One PyPDF2 run (source lines 128-138); a page whose `extract_text()`
returns `None` makes the `+` raise, which is covered by `raised` with the
prior pages kept. -/
structure PypdfRun where
  pages : List String
  raised : Bool

/-- One OCR run (source lines 141-159): whether `convert_from_path`
succeeded, and per page the `image_to_string` result (`none` = that page's
inner `try` raised and the page is skipped). -/
structure OcrRun where
  convOk : Bool
  pages : List (Option String)

/-- The pdfplumber loop: truthy page texts are appended with a newline. -/
def plumberAccum (pages : List (Option String)) : String :=
  pages.foldl
    (fun acc p =>
      match p with
      | some s => if s ≠ "" then acc ++ s ++ "\n" else acc
      | none => acc) ""

/-- The PyPDF2 loop: every page text is appended with a newline. -/
def pypdfAccum (pages : List String) : String :=
  pages.foldl (fun acc s => acc ++ s ++ "\n") ""

/-- The OCR loop: pages with non-blank text are appended with a
`PAGE n:` marker and a blank line; `i` is the 0-based page index. -/
def ocrAccumAux : List (Option String) → Nat → String
  | [], _ => ""
  | p :: ps, i =>
    (match p with
     | some s =>
       if pyStrip s ≠ "" then "PAGE " ++ toString (i + 1) ++ ":\n" ++ s ++ "\n\n"
       else ""
     | none => "") ++ ocrAccumAux ps (i + 1)

/-- The assembled OCR text. -/
def ocrAccum (pages : List (Option String)) : String := ocrAccumAux pages 0

/-- `extract_pdf_text` (source lines 109-162): pdfplumber, then PyPDF2 on
the shared accumulator, then OCR; a text-layer result is accepted when its
stripped length exceeds 100, the OCR result when its stripped length
exceeds 50; otherwise the empty string is returned.  The function is total
(every library exception is caught in the source). -/
def extract_pdf_text (plumber : PlumberRun) (pypdf : PypdfRun)
    (ocr : OcrRun) : String :=
  let t1 := plumberAccum plumber.pages
  if plumber.raised = false ∧ pyStrip t1 ≠ "" ∧ (pyStrip t1).length > 100 then t1
  else
    let t2 := t1 ++ pypdfAccum pypdf.pages
    if pypdf.raised = false ∧ pyStrip t2 ≠ "" ∧ (pyStrip t2).length > 100 then t2
    else if ocr.convOk = false then ""
    else
      let t3 := ocrAccum ocr.pages
      if pyStrip t3 ≠ "" ∧ (pyStrip t3).length > 50 then t3 else ""

/-! ## The checkpoint key of the scrape layer -/

/-- A listing snapshot, with the `snap.get(..., "")` defaults already
folded into total string fields (source lines 672-685 of the backup
scraper). -/
structure ListingSnap where
  address : String
  city : String
  sale_date : String
  file_date : String
  property_type : String
  pdf_downloaded : Bool

/-- The checkpoint key produced by `create_checkpoint_key`. -/
structure CheckpointKey where
  address : String
  city : String
  sale_date : String
  file_date : String
  property_type : String
  pdf_downloaded : Bool
deriving DecidableEq

/-- The address normalization of `create_checkpoint_key` (source lines
674-676): strip, replace CRLF and LF by spaces, then rejoin the
whitespace-split words with single spaces. -/
def normalizeCheckpointAddress (s : String) : String :=
  let a1 := pyStripL s.data
  let a2 := pyReplace a1 "\r\n".data " ".data
  let a3 := pyReplace a2 "\n".data " ".data
  ⟨joinWords (pyWords a3)⟩

/-- `create_checkpoint_key` (source lines 672-685): the normalized address
plus the stripped remaining attributes. -/
def create_checkpoint_key (snap : ListingSnap) : CheckpointKey :=
  CheckpointKey.mk (normalizeCheckpointAddress snap.address)
    (pyStrip snap.city) (pyStrip snap.sale_date) (pyStrip snap.file_date)
    (pyStrip snap.property_type) snap.pdf_downloaded

/-! ## The processed ledger of `ForeClosureJSONUpdater`

State: the in-memory `processed_pdfs` set, the persisted checkpoint file,
and the detail-ids of the records in the parsed-data file (the only part
of `create_parsed_record` that the dedup logic reads back).  Keys are
`Option String` because `source_pdf_file` can be Python `None`. -/

/-- Ledger state. -/
structure LedgerState where
  processedPdfs : List (Option String)
  checkpointFile : List (Option String)
  parsedRecords : List (Option String)

/-- The detail id of a record: the file name with every `.pdf` removed
(source lines 744-745), or `None`. -/
def pdfDetailId (filename : Option String) : Option String :=
  filename.map fun f => (⟨pyReplace f.data ".pdf".data []⟩ : String)

/-- `check_if_already_parsed` (source lines 724-737): `False` for a
missing file name, otherwise a `detail_id` lookup over the stored
records. -/
def check_if_already_parsed (filename : Option String)
    (records : List (Option String)) : Bool :=
  match filename with
  | none => false
  | some f =>
    decide ((some (⟨pyReplace f.data ".pdf".data []⟩ : String)) ∈ records)

/-- Python `set.add`. -/
def setAdd (s : List (Option String)) (k : Option String) :
    List (Option String) :=
  if k ∈ s then s else s ++ [k]

/-- Ledger operations: `save_parsed_pdf_data` for a record with the given
`source_pdf_file` (source lines 865-895), `save_checkpoints` (695-702),
and `load_checkpoints` re-reading the file (684-693). -/
inductive LedgerOp where
  | saveRecord : Option String → LedgerOp
  | saveCheckpointsOp : LedgerOp
  | loadCheckpointsOp : LedgerOp

/-- One ledger step.  `save_parsed_pdf_data` returns early for an
already-parsed record; otherwise it appends the record, adds the file name
to the processed set and persists the set. -/
def ledgerStep (s : LedgerState) (op : LedgerOp) : LedgerState :=
  match op with
  | LedgerOp.loadCheckpointsOp =>
    LedgerState.mk s.checkpointFile s.checkpointFile s.parsedRecords
  | LedgerOp.saveCheckpointsOp =>
    LedgerState.mk s.processedPdfs s.processedPdfs s.parsedRecords
  | LedgerOp.saveRecord f =>
    if check_if_already_parsed f s.parsedRecords then s
    else
      let newProcessed := setAdd s.processedPdfs f
      LedgerState.mk newProcessed newProcessed
        (s.parsedRecords ++ [pdfDetailId f])

/-- A sequence of ledger operations. -/
def ledgerRun (ops : List LedgerOp) (s : LedgerState) : LedgerState :=
  ops.foldl ledgerStep s

/-! ## Specification-side definitions

These definitions formalize the spec's wording (not the source) and are
used only to state claims about the code's behaviour. -/

/-- Number of non-whitespace characters of a string (the spec's
minimum-length notion for text-layer acceptance). -/
def countNonWhitespace (s : String) : Nat :=
  (s.data.filter fun c => ¬ pyIsSpace c).length

/-- Chronological value of a slash/dash-separated numeric `m d y` date, as
`y*10000 + m*100 + d` (spec-side, for comparing matched dates). -/
def numericDateVal (s : String) : Option Nat :=
  match s.data.splitOnP isDateSep with
  | [m, d, y] =>
    if m ≠ [] ∧ d ≠ [] ∧ y ≠ [] ∧ m.all Char.isDigit ∧ d.all Char.isDigit ∧
        y.all Char.isDigit then
      some (digitsToNat y * 10000 + digitsToNat m * 100 + digitsToNat d)
    else none
  | _ => none

/-- Numeric value of a whole-dollar amount string, ignoring `$` and
commas (spec-side, for comparing matched amounts). -/
def moneyValue (s : String) : Nat :=
  digitsToNat (s.data.filter Char.isDigit)

/-- The 26 keys of the fallback/manual result dicts. -/
def manualKeys : List String :=
  ["case_number", "filing_date", "case_type", "court", "plaintiff",
   "defendant", "trustee", "property_address", "legal_description",
   "parcel_number", "lot_block_subdivision", "original_loan_amount",
   "unpaid_balance", "total_debt", "deed_of_trust_date",
   "deed_of_trust_recording_date", "deed_of_trust_volume_page",
   "deed_of_trust_instrument_number", "deed_of_trust_number", "sale_date",
   "sale_time", "sale_location", "borrower_names", "lender_name",
   "attorney_info", "ai_confidence"]

/-- A `ForeClosureData` whose every field is Python `None` (the dataclass
defaults). -/
def fcAllNull : ForeClosureData :=
  ForeClosureData.mk Json.null Json.null Json.null Json.null Json.null
    Json.null Json.null Json.null Json.null Json.null Json.null Json.null
    Json.null Json.null Json.null Json.null Json.null Json.null Json.null
    Json.null Json.null Json.null Json.null Json.null Json.null Json.null
    Json.null Json.null

/-- A 101-character page text with only 41 non-whitespace characters
(one `a`, 60 spaces, 40 `b`): its stripped length exceeds 100 while its
non-whitespace count does not. -/
def lowContentPage : String :=
  "a                                                            " ++
  "bbbbbbbbbbbbbbbbbbbbbbbbbbbbbbbbbbbbbbbb"

/-- The C6 probe text: two qualifying amounts and two dates, the larger
amount and the earlier date second. -/
def moneyDateText : String :=
  "PAY $2,000 NOW AND $5,000 ON 12/31/2020 OR 01/01/2019"

/-! ## Theorems -/

/-- A string with a non-empty strip is non-empty. -/
theorem ne_empty_of_pyStrip_ne (s : String) (h : pyStrip s ≠ "") : s ≠ "" := by
  intro hs
  apply h
  rw [hs]
  rfl

/-- C10: every `ForeClosureData` value, immediately after construction (the
dataclass constructor runs `__post_init__`), has `borrower_names` bound to a
(possibly empty) list and `attorney_info` to a (possibly empty) mapping —
never the `None` value — even when the constructor was passed `None` for
those two fields (assuming the arguments respect the declared field types
`List[str]`/`Dict[str,str]` up to `None`). -/
theorem fcPostInit_defaults (d : ForeClosureData)
    (hb : d.borrower_names = Json.null ∨ ∃ xs, d.borrower_names = Json.arr xs)
    (ha : d.attorney_info = Json.null ∨ ∃ kvs, d.attorney_info = Json.obj kvs) :
    (∃ xs, (fcPostInit d).borrower_names = Json.arr xs) ∧
    (∃ kvs, (fcPostInit d).attorney_info = Json.obj kvs) ∧
    (fcPostInit d).borrower_names ≠ Json.null ∧
    (fcPostInit d).attorney_info ≠ Json.null ∧
    (d.borrower_names = Json.null → (fcPostInit d).borrower_names = Json.arr []) ∧
    (d.attorney_info = Json.null → (fcPostInit d).attorney_info = Json.obj []) := by
  rcases hb with hb | ⟨xs, hb⟩ <;> rcases ha with ha | ⟨ks, ha⟩ <;>
    simp [fcPostInit, hb, ha]

/-- One ledger operation preserves membership of a key in both the
in-memory processed set and the persisted checkpoint file. -/
theorem ledgerStep_mono (t : LedgerState) (op : LedgerOp) (k : Option String)
    (hm : k ∈ t.processedPdfs) (hf : k ∈ t.checkpointFile) :
    k ∈ (ledgerStep t op).processedPdfs ∧ k ∈ (ledgerStep t op).checkpointFile := by
  cases op with
  | loadCheckpointsOp => exact ⟨hf, hf⟩
  | saveCheckpointsOp => exact ⟨hm, hm⟩
  | saveRecord f =>
    simp only [ledgerStep]
    split
    · exact ⟨hm, hf⟩
    · have : k ∈ setAdd t.processedPdfs f := by
        unfold setAdd
        split
        · exact hm
        · exact List.mem_append_left _ hm
      exact ⟨this, this⟩

/-- C9: the processed set of the ledger is monotone.  Once a key is marked
processed (it is in the in-memory `processed_pdfs` set and in the persisted
checkpoint file, as a successful `save_parsed_pdf_data` leaves it), every
later sequence of ledger operations — `load_checkpoints`,
`save_checkpoints`, `save_parsed_pdf_data` — still reports it processed;
and a fresh `save_parsed_pdf_data` marks its key in both places.  No
operation removes an element from the processed set. -/
theorem ledger_processed_monotone (s : LedgerState) (k : Option String)
    (ops : List LedgerOp) (hm : k ∈ s.processedPdfs)
    (hf : k ∈ s.checkpointFile) :
    (k ∈ (ledgerRun ops s).processedPdfs ∧ k ∈ (ledgerRun ops s).checkpointFile) ∧
    (∀ f t, check_if_already_parsed f t.parsedRecords = false →
      f ∈ (ledgerStep t (LedgerOp.saveRecord f)).processedPdfs ∧
      f ∈ (ledgerStep t (LedgerOp.saveRecord f)).checkpointFile) := by
  constructor
  · induction ops generalizing s with
    | nil => exact ⟨hm, hf⟩
    | cons op rest ih =>
      have h := ledgerStep_mono s op k hm hf
      exact ih (ledgerStep s op) h.1 h.2
  · intro f t hfr
    simp only [ledgerStep, hfr]
    have : f ∈ setAdd t.processedPdfs f := by
      unfold setAdd
      split
      · assumption
      · exact List.mem_append_right _ (List.mem_singleton.mpr rfl)
    simp only [Bool.false_eq_true, if_false]
    exact ⟨this, this⟩

/-- C4: `extract_pdf_text` is total — every library exception is caught, so
for every combination of strategy outcomes (including empty or corrupt
inputs, which surface as raised flags or empty page lists) it returns a
string — and it returns the empty string exactly when none of the three
strategies produced text passing its acceptance check (stripped length
over 100 for the two text-layer strategies, over 50 for OCR). -/
theorem extract_pdf_text_empty_iff (plumber : PlumberRun) (pypdf : PypdfRun)
    (ocr : OcrRun) :
    extract_pdf_text plumber pypdf ocr = "" ↔
      (¬ (plumber.raised = false ∧ pyStrip (plumberAccum plumber.pages) ≠ "" ∧
            (pyStrip (plumberAccum plumber.pages)).length > 100) ∧
       ¬ (pypdf.raised = false ∧
            pyStrip (plumberAccum plumber.pages ++ pypdfAccum pypdf.pages) ≠ "" ∧
            (pyStrip (plumberAccum plumber.pages ++ pypdfAccum pypdf.pages)).length > 100) ∧
       ¬ (ocr.convOk = true ∧ pyStrip (ocrAccum ocr.pages) ≠ "" ∧
            (pyStrip (ocrAccum ocr.pages)).length > 50)) := by
  simp only [extract_pdf_text]
  split_ifs with h1 h2 h3 h4
  · constructor
    · intro ht
      exact absurd rfl (ht ▸ h1.2.1)
    · intro hr
      exact absurd h1 hr.1
  · constructor
    · intro ht
      exact absurd rfl (ht ▸ h2.2.1)
    · intro hr
      exact absurd h2 hr.2.1
  · constructor
    · intro _
      refine ⟨h1, h2, ?_⟩
      rintro ⟨hc, -, -⟩
      rw [hc] at h3
      simp at h3
    · intro _
      rfl
  · constructor
    · intro ht
      exact absurd rfl (ht ▸ h4.1)
    · intro hr
      refine absurd ⟨?_, h4.1, h4.2⟩ hr.2.2
      revert h3
      cases ocr.convOk <;> simp
  · constructor
    · intro _
      refine ⟨h1, h2, ?_⟩
      rintro ⟨-, hs, hl⟩
      exact h4 ⟨hs, hl⟩
    · intro _
      rfl

/-- The dict a successful `_fallback_extraction` returns is the literal
`fallbackKvs` of the four scanners' results. -/
theorem fallback_extraction_spec (p : String) (kvs : List (String × Json))
    (h : fallback_extraction p = some kvs) :
    kvs = fallbackKvs (fallback_address p.data)
      ((fallback_names p.data).map Prod.fst)
      ((fallback_amounts p.data).head?.map dollarize)
      (fallback_dates p.data).head?
      (match fallback_names p.data with
       | some q => q.2
       | none => []) := by
  simp only [fallback_extraction] at h
  split at h
  · exact (Option.some_inj.mp h).symm
  · exact absurd h (by simp)

theorem fallback_extraction_ne_nil (p : String) :
    fallback_extraction p ≠ some [] := by
  intro h
  have := fallback_extraction_spec p [] h
  simp [fallbackKvs] at this

theorem fallback_extraction_isSome_iff (p : String) :
    (fallback_extraction p).isSome ↔
      (pyTruthyOptStr (fallback_address p.data) ||
       pyTruthyOptStr ((fallback_names p.data).map Prod.fst) ||
       pyTruthyOptStr ((fallback_amounts p.data).head?.map dollarize)) = true := by
  simp only [fallback_extraction]
  split <;> simp_all

/-- C1 (amended): with the generative service unavailable (`none` result
from `_make_api_request`), `parse_pdf` returns a structured record **iff**
the extracted text has a non-empty strip **and** the deterministic regex
fallback recovers at least one meaningful field (property address,
defendant, or qualifying amount); the record it then returns is tagged
low-confidence.  (The original claim — a record for *every* document with
non-empty extracted text — fails: see the counterexample.) -/
theorem parse_pdf_fallback_amended (pdfText ts fn : String) :
    ((parse_pdf pdfText none ts fn).isSome ↔
      (pyStrip pdfText ≠ "" ∧ (fallback_extraction pdfText).isSome)) ∧
    (∀ d, parse_pdf pdfText none ts fn = some d →
      d.ai_confidence = Json.str "LOW" ∧
      d.extraction_timestamp = Json.str ts ∧
      d.source_pdf_file = Json.str fn) := by
  constructor
  · simp only [parse_pdf]
    split
    · rename_i hs
      simp [hs]
    · rename_i hs
      rcases h : fallback_extraction pdfText with _ | kvs
      · simp [h, hs]
      · rcases kvs with _ | ⟨kv, kvs⟩
        · exact absurd h (fallback_extraction_ne_nil pdfText)
        · simp [h, hs]
  · intro d hd
    simp only [parse_pdf] at hd
    split at hd
    · exact absurd hd (by simp)
    · rcases h : fallback_extraction pdfText with _ | kvs
      · rw [h] at hd
        exact absurd hd (by simp)
      · rcases kvs with _ | ⟨kv, kvs⟩
        · exact absurd h (fallback_extraction_ne_nil pdfText)
        · rw [h] at hd
          have hde : buildForeClosureData (kv :: kvs) ts fn = d :=
            Option.some_inj.mp hd
          have hk := fallback_extraction_spec pdfText _ h
          subst hde
          refine ⟨?_, rfl, rfl⟩
          show (fcPostInit _).ai_confidence = Json.str "LOW"
          rw [show (kv :: kvs) = _ from hk]
          simp [fcPostInit, buildForeClosureData, pyGetJ, fallbackKvs, dictGet]

/-- C1 counterexample: the text `"hello"` is non-empty after stripping,
yet with the generative service unavailable `parse_pdf` returns `None`,
because the fallback finds no property address, defendant or qualifying
amount and `_fallback_extraction` returns `None`. -/
theorem parse_pdf_counter :
    pyStrip "hello" ≠ "" ∧
    parse_pdf "hello" none "2025-01-01T00:00:00" "3927190.pdf" = none := by
  exact ⟨by decide, by rfl⟩

/-- C1 witness: on a text containing a qualifying monetary amount, the
amended claim produces a low-confidence record. -/
theorem parse_pdf_witness :
    (parse_pdf "PAY $2,000 NOW" none "t" "f.pdf").isSome ∧
    (∀ d, parse_pdf "PAY $2,000 NOW" none "t" "f.pdf" = some d →
      d.ai_confidence = Json.str "LOW") :=
  ⟨(parse_pdf_fallback_amended "PAY $2,000 NOW" "t" "f.pdf").1.mpr
      ⟨by decide, by rfl⟩,
   fun d h => ((parse_pdf_fallback_amended "PAY $2,000 NOW" "t" "f.pdf").2 d h).1⟩

theorem stripFences_no_fence (t : List Char)
    (hfj : containsSub (pyLowerL t) "```json".data = false)
    (hf : containsSub t "```".data = false) :
    stripFences t = t := by
  simp [stripFences, hfj, hf]

/-- C2 (amended): for a non-empty response with no markdown fence whose
brace span parses as a JSON object *after the repair pipeline*, the
recovery returns exactly that parsed object.  (The original claim — every
response containing a parseable JSON object is recovered unchanged —
fails: the repairs can corrupt a valid object; see the counterexample.) -/
theorem extract_json_repaired_span (r : String) (s : List Char)
    (kvs : List (String × Json)) (hne : r ≠ "")
    (hfj : containsSub (pyLowerL (pyStripL r.data)) "```json".data = false)
    (hf : containsSub (pyStripL r.data) "```".data = false)
    (hspan : bracesSpan (pyStripL r.data) = some s)
    (hparse : pyJsonLoads ⟨repairSequence s⟩ = some (Json.obj kvs)) :
    extract_json_from_response r = some kvs := by
  simp only [extract_json_from_response, if_neg hne,
    stripFences_no_fence _ hfj hf, jsonAttempts, hspan]
  simp only [List.singleton_append, List.cons_append, tryAttemptsLoop, hparse]

/-- C2 counterexample: the response is itself a parseable JSON object
(`json.loads` succeeds on it), but `_extract_json_from_response` returns
`None`: the key-quoting repair `(\w+):` rewrites the colon inside the
string value `"12:30"` into `""12":30"`, which no longer parses, the
aggressive repair does not help, and manual extraction recovers only one
field (fewer than 3). -/
theorem extract_json_counter :
    pyJsonLoads "\x7b\"case_number\": \"12:30\"\x7d" =
      some (Json.obj [("case_number", Json.str "12:30")]) ∧
    extract_json_from_response "\x7b\"case_number\": \"12:30\"\x7d" = none :=
  ⟨by rfl, by rfl⟩

/-- C2 witness: a response with leading commentary whose brace span is
untouched by the repairs is recovered exactly. -/
theorem extract_json_witness :
    extract_json_from_response
        "Here is the result: \x7b\"case_number\": \"12345\"\x7d" =
      some [("case_number", Json.str "12345")] :=
  extract_json_repaired_span _ ("\x7b\"case_number\": \"12345\"\x7d".data) _
    (by decide) (by rfl) (by rfl) (by rfl) (by rfl)

theorem pyStrip_ne_of_length (s : String) (n : Nat)
    (h : (pyStrip s).length > n) : pyStrip s ≠ "" := by
  intro he
  rw [he] at h
  simp at h

/-- C5 (amended): `extract_pdf_text` tries pdfplumber, PyPDF2, OCR in that
fixed order and short-circuits on the first acceptable output, but the
acceptance threshold is `len(text.strip()) > 100` for the text-layer
strategies (whitespace inside the text counts, and PyPDF2's check runs on
the concatenation of pdfplumber's and PyPDF2's output because the
accumulator persists) and `> 50` for OCR — not a count of 100
non-whitespace characters.  (The original claim's thresholds fail: see the
counterexample.) -/
theorem extract_pdf_text_cascade (plumber : PlumberRun) (pypdf : PypdfRun)
    (ocr : OcrRun) :
    (plumber.raised = false →
     (pyStrip (plumberAccum plumber.pages)).length > 100 →
      extract_pdf_text plumber pypdf ocr = plumberAccum plumber.pages) ∧
    (¬ (plumber.raised = false ∧
          (pyStrip (plumberAccum plumber.pages)).length > 100) →
     pypdf.raised = false →
     (pyStrip (plumberAccum plumber.pages ++ pypdfAccum pypdf.pages)).length > 100 →
      extract_pdf_text plumber pypdf ocr =
        plumberAccum plumber.pages ++ pypdfAccum pypdf.pages) ∧
    (¬ (plumber.raised = false ∧
          (pyStrip (plumberAccum plumber.pages)).length > 100) →
     ¬ (pypdf.raised = false ∧
          (pyStrip (plumberAccum plumber.pages ++ pypdfAccum pypdf.pages)).length > 100) →
     ocr.convOk = true → (pyStrip (ocrAccum ocr.pages)).length > 50 →
      extract_pdf_text plumber pypdf ocr = ocrAccum ocr.pages) ∧
    (¬ (plumber.raised = false ∧
          (pyStrip (plumberAccum plumber.pages)).length > 100) →
     ¬ (pypdf.raised = false ∧
          (pyStrip (plumberAccum plumber.pages ++ pypdfAccum pypdf.pages)).length > 100) →
     ¬ (ocr.convOk = true ∧ (pyStrip (ocrAccum ocr.pages)).length > 50) →
      extract_pdf_text plumber pypdf ocr = "") := by
  refine ⟨?_, ?_, ?_, ?_⟩
  · intro h1 h2
    simp only [extract_pdf_text]
    rw [if_pos ⟨h1, pyStrip_ne_of_length _ 100 h2, h2⟩]
  · intro hn1 h1 h2
    simp only [extract_pdf_text]
    rw [if_neg (fun hacc => hn1 ⟨hacc.1, hacc.2.2⟩),
      if_pos ⟨h1, pyStrip_ne_of_length _ 100 h2, h2⟩]
  · intro hn1 hn2 hc h3
    simp only [extract_pdf_text]
    rw [if_neg (fun hacc => hn1 ⟨hacc.1, hacc.2.2⟩),
      if_neg (fun hacc => hn2 ⟨hacc.1, hacc.2.2⟩)]
    rw [hc]
    simp only [Bool.true_eq_false, if_false]
    rw [if_pos ⟨pyStrip_ne_of_length _ 50 h3, h3⟩]
  · intro hn1 hn2 hn3
    simp only [extract_pdf_text]
    rw [if_neg (fun hacc => hn1 ⟨hacc.1, hacc.2.2⟩),
      if_neg (fun hacc => hn2 ⟨hacc.1, hacc.2.2⟩)]
    cases hc : ocr.convOk with
    | false => simp
    | true =>
      simp only [Bool.true_eq_false, if_false]
      rw [if_neg (fun hacc => hn3 ⟨hc, hacc.2⟩)]

/-- C5 counterexample: a pdfplumber page whose text has 101 characters but
only 41 of them non-whitespace is accepted and returned by
`extract_pdf_text`, although the claim says output at or below the
100-non-whitespace-characters threshold is rejected. -/
theorem extract_accepts_low_content :
    extract_pdf_text (PlumberRun.mk [some lowContentPage] false)
      (PypdfRun.mk [] false) (OcrRun.mk false []) = lowContentPage ++ "\n" ∧
    lowContentPage ++ "\n" ≠ "" ∧
    countNonWhitespace (lowContentPage ++ "\n") ≤ 100 :=
  ⟨by rfl, by decide, by decide⟩

/-- C5 witness: the first branch of the amended cascade at a concrete
accepted pdfplumber run. -/
theorem extract_cascade_witness :
    extract_pdf_text (PlumberRun.mk [some lowContentPage] false)
      (PypdfRun.mk [] false) (OcrRun.mk false []) =
      plumberAccum [some lowContentPage] :=
  (extract_pdf_text_cascade (PlumberRun.mk [some lowContentPage] false)
      (PypdfRun.mk [] false) (OcrRun.mk false [])).1 rfl (by decide)

/-- C6 counterexample: on a text containing the amounts `$2,000` and
`$5,000` (both above the 1000 threshold) and the dates `12/31/2020` and
`01/01/2019`, the fallback stores the *first* amount (`$2,000`, not the
largest `$5,000`) and the *first* date match (`12/31/2020`, not the
chronologically earlier `01/01/2019`). -/
theorem fallback_first_not_extremal :
    (fallback_extraction moneyDateText).map
        (fun d => (dictGet d "total_debt", dictGet d "deed_of_trust_date")) =
      some (some (Json.str "$2,000"), some (Json.str "12/31/2020")) ∧
    "$5,000" ∈ fallback_amounts moneyDateText.data ∧
    moneyValue "$5,000" > moneyValue "$2,000" ∧
    "01/01/2019" ∈ fallback_dates moneyDateText.data ∧
    numericDateVal "01/01/2019" = some 20190101 ∧
    numericDateVal "12/31/2020" = some 20201231 ∧
    (20190101 : Nat) < 20201231 := by
  refine ⟨by rfl, ?_, by decide, ?_, by rfl, by rfl, by decide⟩
  · show "$5,000" ∈ ["$2,000", "$5,000"]
    decide
  · show "01/01/2019" ∈ ["12/31/2020", "01/01/2019"]
    decide

/-- C6 (amended): the deterministic fallback stores as the financial field
the *first* qualifying amount in scan order (dollar-prefixed; `$`-pattern
matches before labelled-amount matches), and as the date field the *first*
date match in pattern order — not the largest amount nor the earliest
date. -/
theorem fallback_first_amount_and_date (p : String) (kvs : List (String × Json))
    (h : fallback_extraction p = some kvs) :
    dictGet kvs "total_debt" =
      some (jOfOpt ((fallback_amounts p.data).head?.map dollarize)) ∧
    dictGet kvs "deed_of_trust_date" =
      some (jOfOpt (fallback_dates p.data).head?) := by
  have hk := fallback_extraction_spec p kvs h
  subst hk
  constructor <;> simp [fallbackKvs, dictGet]

/-- C6 witness: the amended claim at the two-amount, two-date probe
text. -/
theorem fallback_first_witness :
    dictGet (fallbackKvs (fallback_address moneyDateText.data)
      ((fallback_names moneyDateText.data).map Prod.fst)
      ((fallback_amounts moneyDateText.data).head?.map dollarize)
      (fallback_dates moneyDateText.data).head?
      (match fallback_names moneyDateText.data with
       | some q => q.2
       | none => [])) "total_debt" =
      some (jOfOpt ((fallback_amounts moneyDateText.data).head?.map dollarize)) :=
  (fallback_first_amount_and_date moneyDateText _ (by rfl)).1

theorem countCalls_append (a b : List ApiEvent) :
    countCalls (a ++ b) = countCalls a + countCalls b := by
  simp [countCalls, List.filterMap_append]

theorem backoffDelays_append (a b : List ApiEvent) :
    backoffDelays (a ++ b) = backoffDelays a ++ backoffDelays b := by
  simp [backoffDelays, List.filterMap_append]

theorem countCalls_rate (n : Nat) :
    countCalls (if n > 0 then [ApiEvent.rateSleep 2] else []) = 0 := by
  split <;> rfl

theorem backoffDelays_rate (n : Nat) :
    backoffDelays (if n > 0 then [ApiEvent.rateSleep 2] else []) = [] := by
  split <;> rfl

theorem countCalls_nil : countCalls [] = 0 := rfl

theorem countCalls_call_cons (l : List ApiEvent) :
    countCalls (ApiEvent.callModel :: l) = countCalls l + 1 := by
  simp [countCalls, Nat.add_comm]

theorem countCalls_backoff_cons (s : Nat) (l : List ApiEvent) :
    countCalls (ApiEvent.backoffSleep s :: l) = countCalls l := by
  simp [countCalls]

theorem backoffDelays_nil : backoffDelays [] = [] := rfl

theorem backoffDelays_call_cons (l : List ApiEvent) :
    backoffDelays (ApiEvent.callModel :: l) = backoffDelays l := by
  simp [backoffDelays]

theorem backoffDelays_backoff_cons (s : Nat) (l : List ApiEvent) :
    backoffDelays (ApiEvent.backoffSleep s :: l) = s :: backoffDelays l := by
  simp [backoffDelays]

/-- C7: `_make_api_request` invokes the generative collaborator at most 3
times, the backoff delays between consecutive failed attempts are strictly
increasing (3 then 6 seconds, one between each consecutive pair of calls),
and when every attempt fails it makes exactly 3 calls and returns `None`
instead of raising; the loop is bounded by `max_retries = 3`. -/
theorem make_api_request_bounded (gen : Nat → GenOutcome) (n : Nat) :
    countCalls (make_api_request gen n).1 ≤ 3 ∧
    List.Chain' (· < ·) (backoffDelays (make_api_request gen n).1) ∧
    backoffDelays (make_api_request gen n).1 =
      List.take (countCalls (make_api_request gen n).1 - 1) [3, 6] ∧
    ((∀ i, i < 3 → attemptOutcome (gen i) = none) →
      (make_api_request gen n).2 = none) := by
  rcases h0 : attemptOutcome (gen 0) with _ | k0
  · rcases h1 : attemptOutcome (gen 1) with _ | k1
    · rcases h2 : attemptOutcome (gen 2) with _ | k2
      · refine ⟨?_, ?_, ?_, fun _ => ?_⟩ <;>
          simp only [make_api_request, make_api_request_loop, h0, h1, h2,
            countCalls_append, backoffDelays_append, countCalls_rate,
            backoffDelays_rate, countCalls_nil, countCalls_call_cons,
            countCalls_backoff_cons, backoffDelays_nil,
            backoffDelays_call_cons, backoffDelays_backoff_cons] <;>
          norm_num [countCalls, backoffDelays, List.filterMap_cons, List.chain'_cons, List.chain'_singleton]
      · refine ⟨?_, ?_, ?_, fun hall => ?_⟩ <;>
          [skip; skip; skip;
            (rw [hall 2 (by norm_num)] at h2; exact absurd h2 (by simp))] <;>
          simp only [make_api_request, make_api_request_loop, h0, h1, h2,
            countCalls_append, backoffDelays_append, countCalls_rate,
            backoffDelays_rate, countCalls_nil, countCalls_call_cons,
            countCalls_backoff_cons, backoffDelays_nil,
            backoffDelays_call_cons, backoffDelays_backoff_cons] <;>
          norm_num [countCalls, backoffDelays, List.filterMap_cons, List.chain'_cons, List.chain'_singleton]
    · refine ⟨?_, ?_, ?_, fun hall => ?_⟩ <;>
        [skip; skip; skip;
          (rw [hall 1 (by norm_num)] at h1; exact absurd h1 (by simp))] <;>
        simp only [make_api_request, make_api_request_loop, h0, h1,
          countCalls_append, backoffDelays_append, countCalls_rate,
          backoffDelays_rate, countCalls_nil, countCalls_call_cons,
          countCalls_backoff_cons, backoffDelays_nil,
          backoffDelays_call_cons, backoffDelays_backoff_cons] <;>
        norm_num [countCalls, backoffDelays, List.filterMap_cons, List.chain'_cons, List.chain'_singleton]
  · refine ⟨?_, ?_, ?_, fun hall => ?_⟩ <;>
      [skip; skip; skip;
        (rw [hall 0 (by norm_num)] at h0; exact absurd h0 (by simp))] <;>
      simp only [make_api_request, make_api_request_loop, h0,
        countCalls_append, backoffDelays_append, countCalls_rate,
        backoffDelays_rate, countCalls_nil, countCalls_call_cons,
        countCalls_backoff_cons, backoffDelays_nil,
        backoffDelays_call_cons, backoffDelays_backoff_cons] <;>
      norm_num [countCalls, backoffDelays, List.filterMap_cons, List.chain'_cons, List.chain'_singleton]

/-- C7 witness: with a collaborator that always raises, the request
returns `None`. -/
theorem make_api_request_witness :
    (make_api_request (fun _ => GenOutcome.raised) 0).2 = none :=
  (make_api_request_bounded (fun _ => GenOutcome.raised) 0).2.2.2
    (fun _ _ => rfl)

/-- C8: `_manual_json_extraction` returns a record **iff** at least 3
fields were recovered; a returned record has all 26 keys present (never a
missing key), every patterned field whose pattern found nothing holds the
explicit `null` default, every unpatterned data field holds `null`, the
borrower list defaults to the empty list and the attorney mapping to the
empty mapping, and the confidence tag is the preset `"LOW"`. -/
theorem manual_json_extraction_gate (response : String) :
    ((manual_json_extraction response).isSome ↔
      manualExtractedCount response.data ≥ 3) ∧
    (∀ kvs, manual_json_extraction response = some kvs →
      (∀ k, k ∈ manualKeys → (dictGet kvs k).isSome) ∧
      (fieldValue "case_number" response.data = none →
        dictGet kvs "case_number" = some Json.null) ∧
      (fieldValue "filing_date" response.data = none →
        dictGet kvs "filing_date" = some Json.null) ∧
      (fieldValue "case_type" response.data = none →
        dictGet kvs "case_type" = some Json.null) ∧
      (fieldValue "court" response.data = none →
        dictGet kvs "court" = some Json.null) ∧
      (fieldValue "plaintiff" response.data = none →
        dictGet kvs "plaintiff" = some Json.null) ∧
      (fieldValue "defendant" response.data = none →
        dictGet kvs "defendant" = some Json.null) ∧
      (fieldValue "property_address" response.data = none →
        dictGet kvs "property_address" = some Json.null) ∧
      (fieldValue "legal_description" response.data = none →
        dictGet kvs "legal_description" = some Json.null) ∧
      (fieldValue "original_loan_amount" response.data = none →
        dictGet kvs "original_loan_amount" = some Json.null) ∧
      (fieldValue "deed_of_trust_number" response.data = none →
        dictGet kvs "deed_of_trust_number" = some Json.null) ∧
      (fieldValue "sale_date" response.data = none →
        dictGet kvs "sale_date" = some Json.null) ∧
      (fieldValue "sale_time" response.data = none →
        dictGet kvs "sale_time" = some Json.null) ∧
      (fieldValue "sale_location" response.data = none →
        dictGet kvs "sale_location" = some Json.null) ∧
      (fieldValue "lender_name" response.data = none →
        dictGet kvs "lender_name" = some Json.null) ∧
      dictGet kvs "trustee" = some Json.null ∧
      dictGet kvs "parcel_number" = some Json.null ∧
      dictGet kvs "lot_block_subdivision" = some Json.null ∧
      dictGet kvs "unpaid_balance" = some Json.null ∧
      dictGet kvs "total_debt" = some Json.null ∧
      dictGet kvs "deed_of_trust_date" = some Json.null ∧
      dictGet kvs "deed_of_trust_recording_date" = some Json.null ∧
      dictGet kvs "deed_of_trust_volume_page" = some Json.null ∧
      dictGet kvs "deed_of_trust_instrument_number" = some Json.null ∧
      (borrowerPieces response.data = [] →
        dictGet kvs "borrower_names" = some (Json.arr [])) ∧
      dictGet kvs "attorney_info" = some (Json.obj []) ∧
      dictGet kvs "ai_confidence" = some (Json.str "LOW")) := by
  constructor
  · simp only [manual_json_extraction]
    split <;> simp_all
  · intro kvs h
    simp only [manual_json_extraction] at h
    split at h
    · have hk := Option.some_inj.mp h
      subst hk
      refine ⟨?_, ?_, ?_, ?_, ?_, ?_, ?_, ?_, ?_, ?_, ?_, ?_, ?_, ?_, ?_,
        ?_, ?_, ?_, ?_, ?_, ?_, ?_, ?_, ?_, ?_, ?_, ?_⟩
      · intro k hk
        simp only [manualKeys] at hk
        fin_cases hk <;> simp [manualResultKvs, dictGet, jOfOpt]
      all_goals
        first
        | (intro hnone; simp [manualResultKvs, dictGet, jOfOpt, hnone])
        | simp [manualResultKvs, dictGet, jOfOpt]
    · exact absurd h (by simp)

/-- C8 witness: a response text with exactly 3 recoverable fields passes
the gate. -/
theorem manual_json_extraction_witness :
    (manual_json_extraction
      "\"case_number\": \"A\" \"court\": \"B\" \"plaintiff\": \"C\"").isSome :=
  (manual_json_extraction_gate
    "\"case_number\": \"A\" \"court\": \"B\" \"plaintiff\": \"C\"").1.mpr
    (by decide)

/-- A non-empty all-whitespace prefix flushes the accumulator and is
otherwise skipped. -/
theorem pyWordsAux_space_run (t : List Char) (hne : t ≠ [])
    (ht : ∀ c ∈ t, pyIsSpace c = true) (l acc : List Char) :
    pyWordsAux (t ++ l) acc =
      if acc = [] then pyWordsAux l [] else acc.reverse :: pyWordsAux l [] := by
  induction t generalizing acc with
  | nil => cases hne rfl
  | cons c t ih =>
    have hc : pyIsSpace c = true := ht c (List.mem_cons_self c t)
    by_cases hte : t = []
    · subst hte
      simp [pyWordsAux, hc]
    · have h2 := ih hte (fun d hd => ht d (List.mem_cons_of_mem _ hd))
      have h3 : pyWordsAux (t ++ l) [] = pyWordsAux l [] := by simpa using h2 []
      simp only [List.cons_append, pyWordsAux, hc, if_true]
      split <;> simp [List.append_eq, h3]

/-- A whitespace-free prefix is accumulated verbatim. -/
theorem pyWordsAux_word_run (w : List Char)
    (hw : ∀ c ∈ w, pyIsSpace c = false) (l acc : List Char) :
    pyWordsAux (w ++ l) acc = pyWordsAux l (w.reverse ++ acc) := by
  induction w generalizing acc with
  | nil => simp
  | cons c w ih =>
    have hc : pyIsSpace c = false := hw c (List.mem_cons_self c w)
    simp only [List.cons_append, pyWordsAux, hc, Bool.false_eq_true, if_false]
    rw [List.append_eq, ih (fun d hd => hw d (List.mem_cons_of_mem _ hd)) (c :: acc)]
    simp

/-- Every word that `pyWordsAux` emits over a clean accumulator is
non-empty and whitespace-free. -/
theorem pyWordsAux_words_clean (l : List Char) :
    ∀ acc, (∀ c ∈ acc, pyIsSpace c = false) →
      ∀ w ∈ pyWordsAux l acc, w ≠ [] ∧ ∀ c ∈ w, pyIsSpace c = false := by
  induction l with
  | nil =>
    intro acc hacc w hw
    simp only [pyWordsAux] at hw
    split at hw
    · cases hw
    · rename_i hne
      rw [List.mem_singleton] at hw
      subst hw
      refine ⟨by simpa using hne, ?_⟩
      intro c hc
      exact hacc c (List.mem_reverse.mp hc)
  | cons c cs ih =>
    intro acc hacc w hw
    simp only [pyWordsAux] at hw
    by_cases hc : pyIsSpace c = true
    · rw [if_pos hc] at hw
      split at hw
      · exact ih [] (by simp) w hw
      · rename_i hne
        rcases List.mem_cons.mp hw with hw | hw
        · subst hw
          refine ⟨by simpa using hne, ?_⟩
          intro d hd
          exact hacc d (List.mem_reverse.mp hd)
        · exact ih [] (by simp) w hw
    · rw [if_neg hc] at hw
      refine ih (c :: acc) ?_ w hw
      intro d hd
      rcases List.mem_cons.mp hd with rfl | hd
      · exact Bool.not_eq_true _ ▸ eq_false_of_ne_true hc
      · exact hacc d hd

/-- Splitting the single-space join of clean words recovers the words. -/
theorem pyWords_joinWords (ws : List (List Char))
    (h : ∀ w ∈ ws, w ≠ [] ∧ ∀ c ∈ w, pyIsSpace c = false) :
    pyWords (joinWords ws) = ws := by
  induction ws with
  | nil => rfl
  | cons w ws ih =>
    obtain ⟨hne, hw⟩ := h w (List.mem_cons_self w ws)
    cases ws with
    | nil =>
      show pyWordsAux (joinWords [w]) [] = [w]
      have h1 := pyWordsAux_word_run w hw [] []
      simp only [List.append_nil] at h1
      rw [show joinWords [w] = w from rfl, h1]
      simp [pyWordsAux, hne]
    | cons w2 ws' =>
      show pyWordsAux (joinWords (w :: w2 :: ws')) [] = w :: w2 :: ws'
      rw [show joinWords (w :: w2 :: ws') = w ++ ' ' :: joinWords (w2 :: ws')
        from rfl]
      rw [pyWordsAux_word_run w hw]
      simp only [List.append_nil, pyWordsAux, show pyIsSpace ' ' = true from rfl,
        if_true]
      rw [if_neg (by simpa using hne)]
      simp only [List.reverse_reverse]
      have h5 := ih (fun v hv => h v (List.mem_cons_of_mem _ hv))
      simp only [pyWords] at h5
      rw [h5]

/-- Leading whitespace does not change the word split. -/
theorem pyWordsAux_dropWhile (l : List Char) :
    pyWordsAux (l.dropWhile pyIsSpace) [] = pyWordsAux l [] := by
  induction l with
  | nil => rfl
  | cons c cs ih =>
    by_cases hc : pyIsSpace c = true
    · rw [List.dropWhile_cons_of_pos hc, ih]
      simp [pyWordsAux, hc]
    · rw [List.dropWhile_cons_of_neg hc]

/-- Trailing whitespace does not change the word split. -/
theorem pyWordsAux_append_trailing (t : List Char)
    (ht : ∀ c ∈ t, pyIsSpace c = true) (l : List Char) :
    ∀ acc, pyWordsAux (l ++ t) acc = pyWordsAux l acc := by
  induction l with
  | nil =>
    intro acc
    by_cases hte : t = []
    · subst hte
      rfl
    · conv_lhs => rw [List.nil_append,
        show t = t ++ ([] : List Char) from (List.append_nil t).symm]
      rw [pyWordsAux_space_run t hte ht [] acc]
      simp only [pyWordsAux]
      split <;> rfl
  | cons c cs ih =>
    intro acc
    by_cases hc : pyIsSpace c = true <;>
      simp [pyWordsAux, List.append_eq, hc, ih]

/-- Stripping does not change the word split. -/
theorem pyWords_pyStripL (l : List Char) :
    pyWords (pyStripL l) = pyWords l := by
  unfold pyWords pyStripL
  have hy : (l.dropWhile pyIsSpace) =
      ((l.dropWhile pyIsSpace).reverse.dropWhile pyIsSpace).reverse ++
        ((l.dropWhile pyIsSpace).reverse.takeWhile pyIsSpace).reverse := by
    rw [← List.reverse_append, List.takeWhile_append_dropWhile,
      List.reverse_reverse]
  have ht : ∀ c ∈ ((l.dropWhile pyIsSpace).reverse.takeWhile pyIsSpace).reverse,
      pyIsSpace c = true := by
    intro c hc
    exact List.mem_takeWhile_imp (List.mem_reverse.mp hc)
  calc pyWordsAux ((l.dropWhile pyIsSpace).reverse.dropWhile pyIsSpace).reverse []
      = pyWordsAux (((l.dropWhile pyIsSpace).reverse.dropWhile pyIsSpace).reverse ++
          ((l.dropWhile pyIsSpace).reverse.takeWhile pyIsSpace).reverse) [] :=
        (pyWordsAux_append_trailing _ ht _ []).symm
    _ = pyWordsAux (l.dropWhile pyIsSpace) [] := by rw [← hy]
    _ = pyWordsAux l [] := pyWordsAux_dropWhile l

/-- A true `startsWithL` decomposes the list. -/
theorem startsWithL_decomp (pat l : List Char) (h : startsWithL pat l = true) :
    l = pat ++ l.drop pat.length := by
  induction pat generalizing l with
  | nil => simp
  | cons p ps ih =>
    cases l with
    | nil => cases h
    | cons c cs =>
      simp only [startsWithL, Bool.and_eq_true, decide_eq_true_eq] at h
      obtain ⟨rfl, h2⟩ := h
      simpa using ih cs h2

/-- Replacing an all-whitespace pattern by a single space does not change
the word split. -/
theorem pyWordsAux_replace_space (pat : List Char) (hne : pat ≠ [])
    (hp : ∀ c ∈ pat, pyIsSpace c = true) :
    ∀ (fuel : Nat) (l acc : List Char),
      pyWordsAux (pyReplaceFuel fuel l pat [' ']) acc = pyWordsAux l acc := by
  intro fuel
  induction fuel with
  | zero => intro l acc; cases l <;> rfl
  | succ fuel ih =>
    intro l acc
    cases l with
    | nil => rfl
    | cons c cs =>
      simp only [pyReplaceFuel]
      by_cases hs : startsWithL pat (c :: cs) = true
      · rw [if_pos ⟨hne, hs⟩]
        have hdec := startsWithL_decomp pat (c :: cs) hs
        have hdrop : (c :: cs).drop pat.length = cs.drop (pat.length - 1) := by
          cases pat with
          | nil => cases hne rfl
          | cons p ps => simp
        show pyWordsAux (' ' :: pyReplaceFuel fuel (cs.drop (pat.length - 1)) pat [' ']) acc =
          pyWordsAux (c :: cs) acc
        conv_rhs => rw [hdec, hdrop]
        rw [pyWordsAux_space_run pat hne hp]
        simp only [pyWordsAux, show pyIsSpace ' ' = true from rfl, if_true]
        split <;> rw [ih]
      · rw [if_neg (fun hand => hs hand.2)]
        by_cases hc : pyIsSpace c = true <;>
          simp [pyWordsAux, hc, ih]

/-- The checkpoint-address normalization is the single-space join of the
whitespace-split words: the strip and the two newline replacements do not
change the word split. -/
theorem normalizeCheckpointAddress_words (s : String) :
    normalizeCheckpointAddress s = ⟨joinWords (pyWords s.data)⟩ := by
  simp only [normalizeCheckpointAddress]
  have h3 : pyWords (pyReplace
      (pyReplace (pyStripL s.data) "\r\n".data " ".data) "\n".data " ".data) =
      pyWords s.data := by
    unfold pyReplace
    rw [show (" ".data : List Char) = [' '] from rfl]
    rw [show pyWords = fun l => pyWordsAux l [] from rfl]
    simp only []
    rw [pyWordsAux_replace_space "\n".data (by decide) (by decide)]
    rw [pyWordsAux_replace_space "\r\n".data (by decide) (by decide)]
    have := pyWords_pyStripL s.data
    unfold pyWords at this
    exact this
  rw [h3]

/-- Normalization is idempotent. -/
theorem normalizeCheckpointAddress_idem (s : String) :
    normalizeCheckpointAddress (normalizeCheckpointAddress s) =
      normalizeCheckpointAddress s := by
  rw [normalizeCheckpointAddress_words s,
    normalizeCheckpointAddress_words ⟨joinWords (pyWords s.data)⟩]
  congr 1
  show joinWords (pyWords (joinWords (pyWords s.data))) =
    joinWords (pyWords s.data)
  rw [pyWords_joinWords (pyWords s.data)
    (pyWordsAux_words_clean s.data [] (by simp))]

/-- C3 counterexample: two snapshots whose addresses differ only in letter
case (their lower-casings agree) produce *different* checkpoint keys:
`create_checkpoint_key` collapses whitespace but never folds case (the
case-insensitive comparison lives only in the secondary fuzzy pass of
`is_already_processed`). -/
theorem create_checkpoint_key_case_counter :
    pyLowerL "MAIN ST".data = pyLowerL "main st".data ∧
    create_checkpoint_key
        (ListingSnap.mk "MAIN ST" "MCKINNEY" "9/2/2025" "8/1/2025" "RES" false) ≠
      create_checkpoint_key
        (ListingSnap.mk "main st" "MCKINNEY" "9/2/2025" "8/1/2025" "RES" false) :=
  ⟨by decide, by decide⟩

/-- C3 (amended): the checkpoint-key address normalization is idempotent,
and two snapshots whose addresses split into the same whitespace-separated
words (they differ only in whitespace or line breaks) and agree on the
other attributes produce equal fingerprints; in particular
`" 123  Main  St\n"` and `"123 Main St"` normalize alike.  Addresses that
differ in letter case do *not* produce equal fingerprints (see the
counterexample). -/
theorem create_checkpoint_key_normalized (s t : ListingSnap) :
    normalizeCheckpointAddress (normalizeCheckpointAddress s.address) =
      normalizeCheckpointAddress s.address ∧
    (pyWords s.address.data = pyWords t.address.data → s.city = t.city →
      s.sale_date = t.sale_date → s.file_date = t.file_date →
      s.property_type = t.property_type → s.pdf_downloaded = t.pdf_downloaded →
      create_checkpoint_key s = create_checkpoint_key t) ∧
    normalizeCheckpointAddress " 123  Main  St\n" =
      normalizeCheckpointAddress "123 Main St" := by
  refine ⟨normalizeCheckpointAddress_idem s.address, ?_, by decide⟩
  intro hw h1 h2 h3 h4 h5
  unfold create_checkpoint_key
  rw [normalizeCheckpointAddress_words s.address,
    normalizeCheckpointAddress_words t.address, hw, h1, h2, h3, h4, h5]

/-- C3 witness: the whitespace-insensitivity of the amended claim at the
spec's concrete address pair. -/
theorem create_checkpoint_key_witness :
    create_checkpoint_key
        (ListingSnap.mk " 123  Main  St\n" "MCKINNEY" "9/2/2025" "8/1/2025" "RES" false) =
      create_checkpoint_key
        (ListingSnap.mk "123 Main St" "MCKINNEY" "9/2/2025" "8/1/2025" "RES" false) :=
  (create_checkpoint_key_normalized
    (ListingSnap.mk " 123  Main  St\n" "MCKINNEY" "9/2/2025" "8/1/2025" "RES" false)
    (ListingSnap.mk "123 Main St" "MCKINNEY" "9/2/2025" "8/1/2025" "RES" false)).2.1
    (by decide) rfl rfl rfl rfl rfl

/-- C4 witness: with every strategy failing, the result is empty. -/
theorem extract_pdf_text_empty_witness :
    extract_pdf_text (PlumberRun.mk [] false) (PypdfRun.mk [] false)
      (OcrRun.mk false []) = "" :=
  (extract_pdf_text_empty_iff (PlumberRun.mk [] false) (PypdfRun.mk [] false)
    (OcrRun.mk false [])).mpr (by decide)

/-- C9 witness: a key marked in memory and on file survives a fresh save
and a checkpoint reload. -/
theorem ledger_processed_monotone_witness :
    some "3927190.pdf" ∈ (ledgerRun
      [LedgerOp.saveRecord (some "other.pdf"), LedgerOp.loadCheckpointsOp]
      (LedgerState.mk [some "3927190.pdf"] [some "3927190.pdf"] [])).processedPdfs :=
  (ledger_processed_monotone
    (LedgerState.mk [some "3927190.pdf"] [some "3927190.pdf"] [])
    (some "3927190.pdf")
    [LedgerOp.saveRecord (some "other.pdf"), LedgerOp.loadCheckpointsOp]
    (by decide) (by decide)).1.1

/-- C10 witness: constructing with `None` for both fields yields the empty
list and the empty mapping. -/
theorem fcPostInit_defaults_witness :
    (∃ xs, (fcPostInit fcAllNull).borrower_names = Json.arr xs) ∧
    (∃ kvs, (fcPostInit fcAllNull).attorney_info = Json.obj kvs) ∧
    (fcPostInit fcAllNull).borrower_names ≠ Json.null ∧
    (fcPostInit fcAllNull).attorney_info ≠ Json.null ∧
    (fcAllNull.borrower_names = Json.null →
      (fcPostInit fcAllNull).borrower_names = Json.arr []) ∧
    (fcAllNull.attorney_info = Json.null →
      (fcPostInit fcAllNull).attorney_info = Json.obj []) :=
  fcPostInit_defaults fcAllNull (Or.inl rfl) (Or.inl rfl)
